import Mathlib

/-!
Verification development for the R2S4 spent-spool storage generator
(`r2s4.py`, with the batch driver `generate_all.py` and the viewer script
`single_wedge.py`).

The program builds CAD solids through an external geometry kernel.  The
embedding has three layers:

* an exact rational arithmetic layer for every number the source computes
  (derived dimensions, rib counts and spacing, label text, call-site
  argument binding);
* a symbolic pipeline layer recording which kernel operations each part
  assembler performs, in source order, and under which conditions;
* a denotational geometry layer: each solid is interpreted as a region of
  space in cylindrical coordinates (angle in degrees about the vertical
  axis, radius, height).  Revolved profiles and the polar-quadrilateral
  loft solids of the interlink mechanism are interpreted as the annular
  sectors their defining parameters describe (the kernel's straight polar
  chords are idealised as arcs; the loft tapers radii linearly with
  height, exactly as the loft corners move).  Finishing operations whose
  exact shape is irrelevant to the verified properties (the vertical-edge
  fillet, the top-face shell, the engraved text, the hexagonal rib
  cutters) are kept opaque: material-removing operations are modelled as
  intersection with, or subtraction of, an arbitrary region, so every
  theorem quantifying over those regions covers the kernel's actual
  behaviour as an instance.

Module-level constants of `r2s4.py` are threaded through every definition
as an explicit state record, so that statements about state preservation
and call independence can be made.
-/

namespace R2S4

/-- Record of the module-level constants of `r2s4.py` (lines 64-89).
The source declares them as module globals which every builder reads and
none assigns. -/
structure ModuleState where
  additional_clearance : ℚ
  nozzle_diameter : ℚ
  beyond_edge : ℚ
  ring_depth : ℚ
  ring_height : ℚ
  ring_chamfer : ℚ
  tray_edge_fillet : ℚ
  tray_top_chamfer : ℚ
  latch_depth : ℚ
  latch_protrude : ℚ
  latch_gap : ℚ
  handle_sphere_size : ℚ
  handle_cut_depth : ℚ
deriving DecidableEq

/-- The constant values assigned at module load in `r2s4.py`:
`additional_clearance = 0.25`, `nozzle_diameter = 0.4`, `beyond_edge = 10`,
`ring_depth = 6`, `ring_height = 4`, `ring_chamfer = 2`,
`tray_edge_fillet = 2`, `tray_top_chamfer = ring_chamfer`,
`latch_depth = 5`, `latch_protrude = 0.5`,
`latch_gap = latch_protrude + additional_clearance`,
`handle_sphere_size = 15`, `handle_cut_depth = 5`. -/
def initState : ModuleState where
  additional_clearance := 1/4
  nozzle_diameter := 2/5
  beyond_edge := 10
  ring_depth := 6
  ring_height := 4
  ring_chamfer := 2
  tray_edge_fillet := 2
  tray_top_chamfer := 2
  latch_depth := 5
  latch_protrude := 1/2
  latch_gap := 1/2 + 1/4
  handle_sphere_size := 15
  handle_cut_depth := 5

/-- Python `int()` applied to a numeric value: truncation toward zero. -/
def pyInt (q : ℚ) : ℤ :=
  if q < 0 then -Int.floor (-q) else Int.floor q

/-- Python `range(start, stop, step)` for integer arguments, as the list of
its elements (empty when `step` is not positive, which the source never
does). -/
def pyRange (start stop step : ℤ) : List ℤ :=
  if 0 < step then
    (List.range ((stop - start + step - 1) / step).toNat).map
      (fun k => start + step * (k : ℤ))
  else []

/-- Derived dimension `outer_radius = spool_outer_radius + beyond_edge`
computed at the head of `build_base` (line 299) and `build_tray`
(line 461). -/
def outer_radius_of (st : ModuleState) (spool_outer_radius : ℚ) : ℚ :=
  spool_outer_radius + st.beyond_edge

/-- Derived dimension `height = spool_height - ring_height` computed at the
head of `build_base` (line 300) and `build_tray` (line 462). -/
def height_of (st : ModuleState) (spool_height : ℚ) : ℚ :=
  spool_height - st.ring_height

/-! ### Reinforcement-rib arithmetic (`cut_reinforcement_ribs`, lines 408-432) -/

/-- Constant `rib_spacing_target = 7.5` local to `cut_reinforcement_ribs`. -/
def rib_spacing_target : ℚ := 15/2

/-- `rib_span = int(outer_radius - beyond_edge - inner_radius)` (line 415).
`build_tray` passes `outer_radius = spool_outer_radius + beyond_edge`, so
the span is the truncated difference of the spool radii. -/
def rib_span (st : ModuleState) (inner_radius outer_radius : ℚ) : ℤ :=
  pyInt (outer_radius - st.beyond_edge - inner_radius)

/-- `rib_count = int(rib_span / rib_spacing_target)` (line 416). -/
def rib_count (st : ModuleState) (inner_radius outer_radius : ℚ) : ℤ :=
  pyInt ((rib_span st inner_radius outer_radius : ℚ) / rib_spacing_target)

/-- `rib_spacing = int(rib_span / rib_count)` (line 417): the quotient is
truncated to an integer again. -/
def rib_spacing (st : ModuleState) (inner_radius outer_radius : ℚ) : ℤ :=
  pyInt ((rib_span st inner_radius outer_radius : ℚ) /
    (rib_count st inner_radius outer_radius : ℚ))

/-- The rib radial offsets iterated by
`range(rib_spacing, rib_span, rib_spacing)` (line 420). -/
def rib_radii (st : ModuleState) (inner_radius outer_radius : ℚ) : List ℤ :=
  pyRange (rib_spacing st inner_radius outer_radius)
    (rib_span st inner_radius outer_radius)
    (rib_spacing st inner_radius outer_radius)

/-! ### Label text (`build_label`, lines 438-453, and its call from
`build_tray`, line 488) -/

/-- Rendering of an integer tuple the way the label's `format` call does:
the four values separated by single spaces.  This is the spec-side notion
of "the integer-truncated tuple" as engraved text. -/
def label_tuple_render (a b c d : ℤ) : String :=
  toString a ++ " " ++ toString b ++ " " ++ toString c ++ " " ++ toString d

/-- The text string built by `build_label` (lines 446-452): a
version-header line followed by the four parameters, each passed through
`int()`. -/
def build_label_text (inner_radius spool_outer_radius spool_height wedge_size : ℚ) :
    String :=
  "R2S4 1.0\n" ++ toString (pyInt inner_radius) ++ " " ++
    toString (pyInt spool_outer_radius) ++ " " ++
    toString (pyInt spool_height) ++ " " ++ toString (pyInt wedge_size)

/-- The anchor radius `text_center` computed by `build_label`
(lines 439-441). -/
def build_label_center (st : ModuleState) (inner_radius outer_radius : ℚ) : ℚ :=
  let inner_edge := inner_radius + st.ring_depth + st.ring_height
  let outer_edge := outer_radius - st.latch_depth
  inner_edge + (outer_edge - inner_edge) / 2

/-- The label `build_tray` engraves (line 488): `build_label` is invoked
with `(inner_radius, spool_outer_radius, outer_radius, spool_height,
wedge_size)`; the text uses the spool outer radius, the derived
`outer_radius` is used only for the anchor. -/
def build_tray_label (st : ModuleState)
    (inner_radius spool_outer_radius spool_height wedge_size : ℚ) :
    String × ℚ :=
  (build_label_text inner_radius spool_outer_radius spool_height wedge_size,
   build_label_center st inner_radius (outer_radius_of st spool_outer_radius))

/-! ### Symbolic pipeline layer -/

/-- The construction stages of `build_base` (lines 298-317), in source
order. -/
inductive BaseStage where
  | revolveRingRoot
  | addSideRails
  | unionOuterFence
  | interlinkClaws
  | cutRingChamfer
deriving DecidableEq, Repr

/-- Outcome of calling a part assembler, before any geometry is attempted:
either the body proceeds to kernel calls, or a validation failure.  The
source contains no parameter check, so no assembler ever produces
`validationError`. -/
inductive CallOutcome where
  | ok
  | validationError
deriving DecidableEq, Repr

/-- The stage sequence `build_base` executes.  The source body
(lines 298-317) is straight-line: it performs the same kernel-backed
stages for every argument tuple, with no conditional and no parameter
check. -/
def build_base_stages (_inner_radius _spool_outer_radius _spool_height
    _wedge_size : ℚ) : List BaseStage :=
  [BaseStage.revolveRingRoot, BaseStage.addSideRails,
   BaseStage.unionOuterFence, BaseStage.interlinkClaws,
   BaseStage.cutRingChamfer]

/-- Whether `build_base` raises a validation error before constructing
geometry.  The source body begins directly with arithmetic and the
`ring_root_profile(...).revolve(...)` kernel call (line 302); there is no
validation of `wedge_size`, radii or clearance, so the answer is `ok` for
every argument tuple, in-range or not. -/
def build_base_outcome (_inner_radius _spool_outer_radius _spool_height
    _wedge_size : ℚ) : CallOutcome :=
  CallOutcome.ok

/-- The construction steps of `build_tray` (lines 460-490), in source
order; the shell and label steps are conditional in the source. -/
inductive TrayStep where
  | revolveTrayProfile
  | filletVerticalEdges
  | chamferRadialEdges
  | addHandle
  | cutReinforcementRibs
  | shellFromTop (thickness : ℚ)
  | cutLabel
deriving DecidableEq

/-- The step sequence `build_tray` executes: the unconditional pipeline
(lines 463-481), then `shell` only under `wall_thickness > 0` (lines
484-485), then the label cut only under `label` (lines 487-488). -/
def build_tray_steps (wall_thickness : ℚ) (label : Bool) : List TrayStep :=
  [TrayStep.revolveTrayProfile, TrayStep.filletVerticalEdges,
   TrayStep.chamferRadialEdges, TrayStep.addHandle,
   TrayStep.cutReinforcementRibs] ++
  (if 0 < wall_thickness then [TrayStep.shellFromTop wall_thickness] else []) ++
  (if label then [TrayStep.cutLabel] else [])

/-- Whether `build_tray` raises a validation error before constructing
geometry: like `build_base`, the body starts with arithmetic and the
profile revolve (lines 461-476) for every argument tuple. -/
def build_tray_outcome (_inner_radius _spool_outer_radius _spool_height
    _wedge_size _wall_thickness : ℚ) : CallOutcome :=
  CallOutcome.ok

/-! ### Python call binding (modelled from Python 3 semantics)

The claim about the driver call sites turns on how CPython binds call
arguments to a function signature, which is language semantics, not
repository code.  Modelled from the spec of Python 3 calls: a call with
more positional arguments than the function has parameters, or with a
keyword argument naming no parameter, raises `TypeError` during binding,
before the function body (and hence any geometry construction) runs. -/

/-- A Python function signature: parameter names in order, and how many of
the trailing parameters carry default values. -/
structure PySig where
  params : List String
  numDefaults : ℕ

/-- The argument shape of a call site: how many positional arguments, and
which keyword names. -/
structure PyCallArgs where
  numPositional : ℕ
  keywords : List String

/-- Result of binding call arguments against a signature. -/
inductive PyBindResult where
  | bound
  | typeErrorTooManyPositional
  | typeErrorUnexpectedKeyword
  | typeErrorMultipleValues
  | typeErrorMissingArgument
deriving DecidableEq, Repr

/-- Python 3 call-argument binding for a signature without `*args` or
`**kwargs`: too many positional arguments, a keyword naming no parameter,
a keyword for an already-filled positional slot, or a missing
non-defaulted parameter each raise `TypeError`. -/
def pyBind (sig : PySig) (call : PyCallArgs) : PyBindResult :=
  if sig.params.length < call.numPositional then
    PyBindResult.typeErrorTooManyPositional
  else if call.keywords.any (fun k => !(sig.params.contains k)) then
    PyBindResult.typeErrorUnexpectedKeyword
  else if call.keywords.any (fun k => (sig.params.take call.numPositional).contains k) then
    PyBindResult.typeErrorMultipleValues
  else if ((sig.params.take (sig.params.length - sig.numDefaults)).drop
      call.numPositional).any (fun k => !(call.keywords.contains k)) then
    PyBindResult.typeErrorMissingArgument
  else PyBindResult.bound

/-- Invoking a function: the body (here represented by its stage list)
runs only when binding succeeds; a `TypeError` during binding means no
geometry is ever constructed. -/
def pyInvoke (sig : PySig) (call : PyCallArgs) (body : List BaseStage) :
    Option (List BaseStage) :=
  if pyBind sig call = PyBindResult.bound then some body else none

/-- Signature of `build_base` (r2s4.py line 298): exactly four parameters,
none defaulted. -/
def build_base_sig : PySig :=
  ⟨["inner_radius", "spool_outer_radius", "spool_height", "wedge_size"], 0⟩

/-- Signature of `build_placeholder` (r2s4.py line 324): the same four
parameters, none defaulted. -/
def build_placeholder_sig : PySig :=
  ⟨["inner_radius", "spool_outer_radius", "spool_height", "wedge_size"], 0⟩

/-- Signature of `build_tray` (r2s4.py line 460): six parameters, the last
two (`wall_thickness`, `label`) defaulted. -/
def build_tray_sig : PySig :=
  ⟨["inner_radius", "spool_outer_radius", "spool_height", "wedge_size",
    "wall_thickness", "label"], 2⟩

/-- Argument shape of the `r2s4.build_base(...)` call in `generate_all.py`
lines 101-107: four positional arguments plus the keyword argument
`additional_clearance=spool["additional_clearance"]`. -/
def generate_all_build_base_call : PyCallArgs :=
  ⟨4, ["additional_clearance"]⟩

/-- Argument shape of the `r2s4.build_placeholder(...)` call in
`generate_all.py` lines 130-136: four positional arguments plus the
keyword argument `additional_clearance=...`. -/
def generate_all_build_placeholder_call : PyCallArgs :=
  ⟨4, ["additional_clearance"]⟩

/-- Argument shape of the `r2s4.build_base(...)` call in `single_wedge.py`
lines 84-91: five positional arguments, the fifth being
`additional_clearance`. -/
def single_wedge_build_base_call : PyCallArgs :=
  ⟨5, []⟩

/-- Argument shape of the `r2s4.build_placeholder(...)` call in
`single_wedge.py` lines 94-101: five positional arguments, the fifth
being `additional_clearance`. -/
def single_wedge_build_placeholder_call : PyCallArgs :=
  ⟨5, []⟩

/-- Argument shape of the `r2s4.build_tray(...)` call in `generate_all.py`
lines 119-125: five positional arguments, the fifth being
`wall_thickness` (which the signature does accept). -/
def generate_all_build_tray_call : PyCallArgs :=
  ⟨5, []⟩

/-! ### Denotational geometry layer

A point of space in cylindrical coordinates about the vertical axis:
`theta` in degrees, `rho` the distance from the axis, `z` the height.
Angular-span statements take the canonical representative
`-180 < theta ≤ 180`. -/

/-- A spatial point in cylindrical coordinates (degrees, radius, height). -/
structure Pt where
  theta : ℝ
  rho : ℝ
  z : ℝ

/-- A solid is interpreted as the region of points it occupies. -/
def Region : Type := Pt → Prop

/-- Boolean union of solids (the `+` operator of the kernel). -/
def rUnion (a b : Region) : Region := fun p => a p ∨ b p

/-- Boolean subtraction of solids (the `-` operator of the kernel). -/
def rCut (a b : Region) : Region := fun p => a p ∧ ¬ b p

/-- Boolean intersection of solids (the `intersect` method of the
kernel). -/
def rInter (a b : Region) : Region := fun p => a p ∧ b p

/-- Cosine of an angle given in degrees. -/
noncomputable def cosd (a : ℝ) : ℝ := Real.cos (a * Real.pi / 180)

/-- Sine of an angle given in degrees. -/
noncomputable def sind (a : ℝ) : ℝ := Real.sin (a * Real.pi / 180)

/-- The Cartesian first coordinate of a point, relative to a frame rotated
by `rot` degrees about the vertical axis. -/
noncomputable def xCoord (rot : ℝ) (p : Pt) : ℝ := p.rho * cosd (p.theta - rot)

/-- The Cartesian second coordinate of a point, relative to a frame
rotated by `rot` degrees about the vertical axis. -/
noncomputable def yCoord (rot : ℝ) (p : Pt) : ℝ := p.rho * sind (p.theta - rot)

/-- A point as seen from a frame rotated by `a` degrees: the material of a
copy of a solid rotated by `+a` contains `p` exactly when the original
contains `rotPt a p`. -/
def rotPt (a : ℚ) (p : Pt) : Pt := ⟨p.theta - a, p.rho, p.z⟩

/-- Region of `ring_root_profile(inner_radius)` (lines 95-102) revolved by
`angle` degrees from the `0°` boundary, as `build_base` does with
`angle = wedge_size` (line 302).  The profile is the closed polyline
`(0,0) → (0, ring_height) → (inner_radius+ring_depth, ring_height) →
(inner_radius+ring_depth+ring_height, 0)`; its planar interior is the
trapezoid `0 ≤ z ≤ ring_height`,
`0 ≤ x ≤ inner_radius+ring_depth+ring_height−z` (hypotenuse slope 1). -/
def ring_root_rev (st : ModuleState) (inner_radius angle : ℚ) : Region := fun p =>
  0 ≤ p.theta ∧ p.theta ≤ (angle : ℝ) ∧
  0 ≤ p.z ∧ p.z ≤ (st.ring_height : ℝ) ∧
  0 ≤ p.rho ∧
  p.rho ≤ (inner_radius : ℝ) + st.ring_depth + st.ring_height - p.z

/-- Region of `ring_root_profile(inner_radius).revolve(360, ...)` as
`build_placeholder` builds it (line 327): the full 360° sweep covers every
angle, so the region carries no angular constraint. -/
def ring_root_rev360 (st : ModuleState) (inner_radius : ℚ) : Region := fun p =>
  0 ≤ p.z ∧ p.z ≤ (st.ring_height : ℝ) ∧
  0 ≤ p.rho ∧
  p.rho ≤ (inner_radius : ℝ) + st.ring_depth + st.ring_height - p.z

/-- Region of one side rail (`add_side_rails` loop body, lines 109-123):
a triangular prism drawn on the `YZ` workplane rotated by
`wedge_size * rail_index` about the vertical axis and extruded
`outer_radius` along its normal.  The triangle in local `(y, z)`
coordinates has vertices `(0,0)`, `(0, ring_height)`,
`(mirror * ring_height/2, 0)` with `mirror = 1` for index 0 and
`mirror = -1` for index 1, so its interior is `0 ≤ mirror*y`,
`0 ≤ z ≤ ring_height - 2*mirror*y`. -/
def rail_region (st : ModuleState) (outer_radius wedge_size : ℚ)
    (rail_index : Fin 2) : Region := fun p =>
  let mirror : ℝ := if rail_index = 0 then 1 else -1
  let rot : ℝ := (wedge_size : ℝ) * (rail_index : ℕ)
  0 ≤ xCoord rot p ∧ xCoord rot p ≤ (outer_radius : ℝ) ∧
  0 ≤ mirror * yCoord rot p ∧
  0 ≤ p.z ∧ p.z ≤ (st.ring_height : ℝ) - 2 * (mirror * yCoord rot p)

/-- Region of the rail cleanup volume (lines 126-131): the annulus between
`inner_radius + additional_clearance` and `outer_radius` extruded
`height*2` both ways. -/
def rails_cleanup_region (st : ModuleState) (inner_radius outer_radius height : ℚ) :
    Region := fun p =>
  (inner_radius : ℝ) + st.additional_clearance ≤ p.rho ∧
  p.rho ≤ (outer_radius : ℝ) ∧
  -((height : ℝ) * 2) ≤ p.z ∧ p.z ≤ (height : ℝ) * 2

/-- Region produced by `add_side_rails` (lines 108-134): the base plus
both rails, intersected with the cleanup annulus. -/
def add_side_rails_region (st : ModuleState) (base : Region)
    (inner_radius outer_radius height wedge_size : ℚ) : Region :=
  rInter
    (rUnion (rUnion base (rail_region st outer_radius wedge_size 0))
      (rail_region st outer_radius wedge_size 1))
    (rails_cleanup_region st inner_radius outer_radius height)

/-- Region of the short outer fence (lines 143-151): the quadrilateral
with vertices `(outer_radius-latch_depth+latch_protrude+latch_gap, 0)`,
`(outer_radius-latch_depth+latch_gap, ring_height)`,
`(outer_radius, ring_height)`, `(outer_radius, 0)` on the `XZ` plane,
revolved by `wedge_size`.  Its left edge at height `z` sits at
`outer_radius - latch_depth + latch_gap + latch_protrude
 - z*latch_protrude/ring_height`. -/
def fence_region (st : ModuleState) (outer_radius wedge_size : ℚ) : Region := fun p =>
  0 ≤ p.theta ∧ p.theta ≤ (wedge_size : ℝ) ∧
  0 ≤ p.z ∧ p.z ≤ (st.ring_height : ℝ) ∧
  (outer_radius : ℝ) - st.latch_depth + st.latch_gap + st.latch_protrude
    - p.z * st.latch_protrude / st.ring_height ≤ p.rho ∧
  p.rho ≤ (outer_radius : ℝ)

/-- Region of the fence tab sphere (lines 154-160): a sphere of radius
`handle_sphere_size` centred at angle `wedge_size/2`, radius
`outer_radius - handle_sphere_size + handle_cut_depth/2`, height
`ring_height/2`. -/
def fence_tab_ball_region (st : ModuleState) (outer_radius wedge_size : ℚ) :
    Region := fun p =>
  let c : ℝ := (outer_radius : ℝ) - st.handle_sphere_size + st.handle_cut_depth / 2
  p.rho ^ 2 + c ^ 2 - 2 * p.rho * c * cosd (p.theta - (wedge_size : ℝ) / 2) +
      (p.z - (st.ring_height : ℝ) / 2) ^ 2 ≤ (st.handle_sphere_size : ℝ) ^ 2

/-- Region of the fence tab keep volume (lines 161-169): the rectangle
`outer_radius ≤ x ≤ outer_radius + handle_sphere_size`,
`0 ≤ z ≤ ring_height` revolved by `wedge_size`. -/
def fence_tab_keep_region (st : ModuleState) (outer_radius wedge_size : ℚ) :
    Region := fun p =>
  0 ≤ p.theta ∧ p.theta ≤ (wedge_size : ℝ) ∧
  0 ≤ p.z ∧ p.z ≤ (st.ring_height : ℝ) ∧
  (outer_radius : ℝ) ≤ p.rho ∧
  p.rho ≤ (outer_radius : ℝ) + st.handle_sphere_size

/-- Region of `build_outer_fence` (lines 141-170): the fence plus the tab
ball clipped to the keep volume. -/
def build_outer_fence_region (st : ModuleState) (outer_radius wedge_size : ℚ) :
    Region :=
  rUnion (fence_region st outer_radius wedge_size)
    (rInter (fence_tab_ball_region st outer_radius wedge_size)
      (fence_tab_keep_region st outer_radius wedge_size))

/-- Region of `build_partial_ring_parallelgram` (lines 186-201): the loft
between a polar quadrilateral with corners at radii `r_in`, `r_out` and
angles `a_si/a_ei` (at `r_in`) and `a_so/a_eo` (at `r_out`), and the same
quadrilateral with every radius reduced by `ring_height`, one
`ring_height` higher.  Each loft corner moves inward at slope 1, so a
point at height `z` belongs to the solid when its bottom-equivalent
radius `rho + z` interpolates between `r_in` and `r_out` at some
`t ∈ [0,1]` and its angle lies between the two interpolated angular
edges.  The straight polar chords of the sketch are idealised as arcs. -/
def ring_pgram_region (st : ModuleState) (r_in r_out a_si a_so a_ei a_eo : ℚ) :
    Region := fun p =>
  0 ≤ p.z ∧ p.z ≤ (st.ring_height : ℝ) ∧
  ∃ t : ℝ, 0 ≤ t ∧ t ≤ 1 ∧
    p.rho + p.z = (r_in : ℝ) + t * ((r_out : ℝ) - r_in) ∧
    min ((a_si : ℝ) + t * ((a_so : ℝ) - a_si))
        ((a_ei : ℝ) + t * ((a_eo : ℝ) - a_ei)) ≤ p.theta ∧
    p.theta ≤ max ((a_si : ℝ) + t * ((a_so : ℝ) - a_si))
        ((a_ei : ℝ) + t * ((a_eo : ℝ) - a_ei))

/-- Region of `build_partial_ring_rect` (lines 176-184): the parallelogram
builder with both angular edges radial (`angle_start` at both radii,
`angle_end` at both radii). -/
def ring_rect_region (st : ModuleState) (r_in r_out a_s a_e : ℚ) : Region :=
  ring_pgram_region st r_in r_out a_s a_s a_e a_e

/-- Local constant `ring_claw_thickness = nozzle_diameter*4` of
`interlink_claws` (line 210). -/
def ring_claw_thickness (st : ModuleState) : ℚ := st.nozzle_diameter * 4

/-- Local constant `ring_claw_span = 2` degrees (line 211). -/
def ring_claw_span : ℚ := 2

/-- Local constant `ring_claw_rake = 0.5` degrees (line 212). -/
def ring_claw_rake : ℚ := 1/2

/-- Local constant `ring_claw_gap = 0.5` degrees (line 213). -/
def ring_claw_gap : ℚ := 1/2

/-- Derived radius `claw_outer_radius = inner_radius + ring_depth +
ring_height - nozzle_diameter*4` (line 215). -/
def claw_outer_radius (st : ModuleState) (inner_radius : ℚ) : ℚ :=
  inner_radius + st.ring_depth + st.ring_height - st.nozzle_diameter * 4

/-- The outer claw slot cut near the `0°` boundary (lines 217-222). -/
def claw_slot_outer_region (st : ModuleState) (inner_radius : ℚ) : Region :=
  ring_rect_region st (inner_radius + st.ring_chamfer + ring_claw_thickness st)
    (claw_outer_radius st inner_radius) 0 (ring_claw_span + ring_claw_gap)

/-- The outer claw arm added past the `wedge_size` boundary
(lines 225-230). -/
def claw_arm_outer_region (st : ModuleState) (inner_radius wedge_size : ℚ) : Region :=
  ring_rect_region st
    (claw_outer_radius st inner_radius - st.nozzle_diameter - ring_claw_thickness st)
    (claw_outer_radius st inner_radius - st.nozzle_diameter)
    wedge_size (wedge_size + ring_claw_span)

/-- The inner claw slot cut near the `wedge_size` boundary
(lines 233-238). -/
def claw_slot_inner_region (st : ModuleState) (inner_radius wedge_size : ℚ) : Region :=
  ring_rect_region st (inner_radius + st.ring_chamfer)
    (claw_outer_radius st inner_radius - st.nozzle_diameter - ring_claw_thickness st)
    wedge_size (wedge_size - ring_claw_span - ring_claw_gap)

/-- The inner claw arm added past the `0°` boundary (lines 241-246). -/
def claw_arm_inner_region (st : ModuleState) (inner_radius : ℚ) : Region :=
  ring_rect_region st (inner_radius + st.ring_chamfer)
    (inner_radius + st.ring_chamfer + ring_claw_thickness st)
    0 (-ring_claw_span)

/-- The raked outer claw tip (lines 249-256). -/
def claw_tip_outer_region (st : ModuleState) (inner_radius wedge_size : ℚ) : Region :=
  ring_pgram_region st
    (claw_outer_radius st inner_radius - st.nozzle_diameter - ring_claw_thickness st)
    (inner_radius + st.ring_chamfer + ring_claw_thickness st)
    (wedge_size + ring_claw_rake) (wedge_size - ring_claw_rake)
    (wedge_size + ring_claw_span) (wedge_size + ring_claw_span - ring_claw_rake * 2)

/-- The clearance cut for the outer claw tip (lines 257-262). -/
def claw_tip_outer_clear_region (st : ModuleState) (inner_radius wedge_size : ℚ) :
    Region :=
  ring_rect_region st
    (inner_radius + st.ring_chamfer + ring_claw_thickness st + st.nozzle_diameter)
    inner_radius (wedge_size - ring_claw_rake) (wedge_size + ring_claw_span)

/-- The raked inner claw tip (lines 267-274); the first radius carries the
source's `-0.1` seam workaround. -/
def claw_tip_inner_region (st : ModuleState) (inner_radius : ℚ) : Region :=
  ring_pgram_region st
    (inner_radius + st.ring_chamfer + ring_claw_thickness st - 1/10)
    (claw_outer_radius st inner_radius - st.nozzle_diameter - ring_claw_thickness st)
    (-ring_claw_span) (-ring_claw_span + ring_claw_rake * 2)
    (-ring_claw_rake) ring_claw_rake

/-- The clearance cut for the inner claw tip (lines 275-280). -/
def claw_tip_inner_clear_region (st : ModuleState) (inner_radius : ℚ) : Region :=
  ring_rect_region st
    (claw_outer_radius st inner_radius - st.nozzle_diameter * 2 - ring_claw_thickness st)
    (claw_outer_radius st inner_radius) (-ring_claw_span) ring_claw_rake

/-- The spool-bore cleanup cut of `interlink_claws` (lines 285-289): the
cylinder of radius `inner_radius + additional_clearance` over
`0 ≤ z ≤ ring_height`. -/
def claw_cleanup_region (st : ModuleState) (inner_radius : ℚ) : Region := fun p =>
  p.rho ≤ (inner_radius : ℝ) + st.additional_clearance ∧
  0 ≤ p.z ∧ p.z ≤ (st.ring_height : ℝ)

/-- Region produced by `interlink_claws` (lines 208-292), composing the
slots, arms and raked tips onto `base` in source order: cut the outer
slot, add the outer arm, cut the inner slot, add the inner arm, add each
clipped tip, and finally cut the bore cleanup cylinder. -/
def interlink_claws_region (st : ModuleState) (base : Region)
    (inner_radius wedge_size : ℚ) : Region :=
  rCut
    (rUnion
      (rUnion
        (rUnion
          (rCut
            (rUnion (rCut base (claw_slot_outer_region st inner_radius))
              (claw_arm_outer_region st inner_radius wedge_size))
            (claw_slot_inner_region st inner_radius wedge_size))
          (claw_arm_inner_region st inner_radius))
        (rCut (claw_tip_outer_region st inner_radius wedge_size)
          (claw_tip_outer_clear_region st inner_radius wedge_size)))
      (rCut (claw_tip_inner_region st inner_radius)
        (claw_tip_inner_clear_region st inner_radius)))
    (claw_cleanup_region st inner_radius)

/-- Region of the inner-corner chamfer cut of `build_base`
(lines 308-314): the triangle `(0,0)`, `(inner_radius+ring_chamfer, 0)`,
`(inner_radius, ring_chamfer)` on the `XZ` plane revolved by
`wedge_size`.  Its interior is `0 ≤ z`,
`rho + z ≤ inner_radius + ring_chamfer` (outer edge, slope 1) and
`z * inner_radius ≤ rho * ring_chamfer` (edge back to the origin). -/
def ring_chamfer_cut_region (st : ModuleState) (inner_radius wedge_size : ℚ) :
    Region := fun p =>
  0 ≤ p.theta ∧ p.theta ≤ (wedge_size : ℝ) ∧
  0 ≤ p.z ∧
  p.rho + p.z ≤ (inner_radius : ℝ) + st.ring_chamfer ∧
  p.z * (inner_radius : ℝ) ≤ p.rho * (st.ring_chamfer : ℝ)

/-- Region of the solid returned by `build_base` (lines 298-317): the
revolved ring root, with side rails added and trimmed, the outer fence
and tab unioned on, the interlink claws applied, and the inner corner
chamfer cut off. -/
def build_base_region (st : ModuleState)
    (inner_radius spool_outer_radius spool_height wedge_size : ℚ) : Region :=
  let outer_radius := outer_radius_of st spool_outer_radius
  let height := height_of st spool_height
  rCut
    (interlink_claws_region st
      (rUnion
        (add_side_rails_region st (ring_root_rev st inner_radius wedge_size)
          inner_radius outer_radius height wedge_size)
        (build_outer_fence_region st outer_radius wedge_size))
      inner_radius wedge_size)
    (ring_chamfer_cut_region st inner_radius wedge_size)

/-- Region of the solid returned by `build_placeholder` (lines 324-328):
the base intersected with the full 360° ring-root sweep. -/
def build_placeholder_region (st : ModuleState)
    (inner_radius spool_outer_radius spool_height wedge_size : ℚ) : Region :=
  rInter
    (build_base_region st inner_radius spool_outer_radius spool_height wedge_size)
    (ring_root_rev360 st inner_radius)

/-- Statement of the spec's formula for the placeholder, written from the
spec's words: `build_base(params) ∩ revolve(ringRootProfile, 360°)`. -/
def placeholder_spec_region (st : ModuleState)
    (inner_radius spool_outer_radius spool_height wedge_size : ℚ) : Region := fun p =>
  build_base_region st inner_radius spool_outer_radius spool_height wedge_size p ∧
  ring_root_rev360 st inner_radius p

/-! #### The tray -/

/-- Opaque shapes consumed by the tray pipeline, whose exact geometry the
verified properties do not depend on: the planar interior of the revolved
tray silhouette polygon (lines 464-474, a function of radius and height),
the region kept by the vertical-edge fillet (line 478) and by the
top-face shell of a given thickness (line 485) — both material-removing
operations, modelled as intersection with an arbitrary kept region — the
hexagonal rib cutter loft for a given rib angle and radial offset
(lines 421-429), and the engraved label solid (line 488).  Theorems
quantify over this structure, so they hold for the kernel's actual
shapes. -/
structure TrayOpaque where
  profile2D : ℝ → ℝ → Prop
  filletKeep : Region
  shellKeep : ℚ → Region
  ribShape : ℚ → ℤ → Region
  labelCut : Region

/-- Region of the revolved tray silhouette (lines 463-476): the profile's
planar interior swept from `0°` to `wedge_size`. -/
def tray_profile_rev (o : TrayOpaque) (wedge_size : ℚ) : Region := fun p =>
  0 ≤ p.theta ∧ p.theta ≤ (wedge_size : ℝ) ∧ o.profile2D p.rho p.z

/-- Region of one top radial-edge chamfer cutter of
`chamfer_tray_radial_edges` (lines 343-351): a triangular prism at the
boundary `wedge_size * edge_index`, with local triangle
`(0, height-tray_top_chamfer)`, `(0, height)`,
`(mirror*tray_top_chamfer/2, height)`, extruded `outer_radius` along the
boundary direction. -/
def tray_top_edge_region (st : ModuleState) (outer_radius height wedge_size : ℚ)
    (edge_index : Fin 2) : Region := fun p =>
  let mirror : ℝ := if edge_index = 0 then 1 else -1
  let rot : ℝ := (wedge_size : ℝ) * (edge_index : ℕ)
  0 ≤ xCoord rot p ∧ xCoord rot p ≤ (outer_radius : ℝ) ∧
  0 ≤ mirror * yCoord rot p ∧ p.z ≤ (height : ℝ) ∧
  (height : ℝ) - st.tray_top_chamfer + 2 * (mirror * yCoord rot p) ≤ p.z

/-- Region of one bottom radial-edge chamfer cutter of
`chamfer_tray_radial_edges` (lines 354-361): a triangular prism at the
boundary, with local triangle `(0,0)`,
`(0, ring_height+additional_clearance)`,
`(mirror*(ring_height/2+additional_clearance), 0)`. -/
def tray_bottom_edge_region (st : ModuleState) (outer_radius wedge_size : ℚ)
    (edge_index : Fin 2) : Region := fun p =>
  let mirror : ℝ := if edge_index = 0 then 1 else -1
  let rot : ℝ := (wedge_size : ℝ) * (edge_index : ℕ)
  0 ≤ xCoord rot p ∧ xCoord rot p ≤ (outer_radius : ℝ) ∧
  0 ≤ mirror * yCoord rot p ∧ 0 ≤ p.z ∧
  p.z * ((st.ring_height : ℝ) / 2 + st.additional_clearance) ≤
    ((st.ring_height : ℝ) + st.additional_clearance) *
      ((st.ring_height : ℝ) / 2 + st.additional_clearance - mirror * yCoord rot p)

/-- Region after `chamfer_tray_radial_edges` (lines 336-364): the tray
with both top and both bottom boundary prisms subtracted. -/
def chamfer_tray_radial_edges_region (st : ModuleState) (tray : Region)
    (outer_radius height wedge_size : ℚ) : Region :=
  rCut
    (rCut
      (rCut (rCut tray (tray_top_edge_region st outer_radius height wedge_size 0))
        (tray_bottom_edge_region st outer_radius wedge_size 0))
      (tray_top_edge_region st outer_radius height wedge_size 1))
    (tray_bottom_edge_region st outer_radius wedge_size 1)

/-- Region of the handle scoop sphere (lines 374-379): radius
`handle_sphere_size`, centred at angle `wedge_size/2`, radius
`outer_radius + handle_sphere_size - handle_cut_depth`, height
`height/2`. -/
def handle_cutout_region (st : ModuleState) (outer_radius height wedge_size : ℚ) :
    Region := fun p =>
  let c : ℝ := (outer_radius : ℝ) + st.handle_sphere_size - st.handle_cut_depth
  p.rho ^ 2 + c ^ 2 - 2 * p.rho * c * cosd (p.theta - (wedge_size : ℝ) / 2) +
      (p.z - (height : ℝ) / 2) ^ 2 ≤ (st.handle_sphere_size : ℝ) ^ 2

/-- Region of the handle keep prism (lines 380-389): the quadrilateral
`outer_radius - handle_cut_depth ≤ x ≤ outer_radius + handle_sphere_size`,
`-handle_width_half ≤ y ≤ handle_width_half` (with `handle_width_half = 2`,
line 372) in the frame rotated to `wedge_size/2`, extruded to `height`. -/
def handle_keep_region (st : ModuleState) (outer_radius height wedge_size : ℚ) :
    Region := fun p =>
  let halfw : ℝ := 2
  (outer_radius : ℝ) - st.handle_cut_depth ≤ xCoord ((wedge_size : ℝ) / 2) p ∧
  xCoord ((wedge_size : ℝ) / 2) p ≤ (outer_radius : ℝ) + st.handle_sphere_size ∧
  -halfw ≤ yCoord ((wedge_size : ℝ) / 2) p ∧
  yCoord ((wedge_size : ℝ) / 2) p ≤ halfw ∧
  0 ≤ p.z ∧ p.z ≤ (height : ℝ)

/-- Region of the handle boss sphere (lines 392-397): like the scoop
sphere but centred at radius
`outer_radius - handle_sphere_size + handle_cut_depth`. -/
def handle_add_ball_region (st : ModuleState) (outer_radius height wedge_size : ℚ) :
    Region := fun p =>
  let c : ℝ := (outer_radius : ℝ) - st.handle_sphere_size + st.handle_cut_depth
  p.rho ^ 2 + c ^ 2 - 2 * p.rho * c * cosd (p.theta - (wedge_size : ℝ) / 2) +
      (p.z - (height : ℝ) / 2) ^ 2 ≤ (st.handle_sphere_size : ℝ) ^ 2

/-- Region after `add_handle` (lines 370-401): subtract the scoop sphere
minus the keep prism, then add the boss sphere clipped to the keep
prism. -/
def add_handle_region (st : ModuleState) (tray : Region)
    (outer_radius height wedge_size : ℚ) : Region :=
  rUnion
    (rCut tray
      (rCut (handle_cutout_region st outer_radius height wedge_size)
        (handle_keep_region st outer_radius height wedge_size)))
    (rInter (handle_add_ball_region st outer_radius height wedge_size)
      (handle_keep_region st outer_radius height wedge_size))

/-- Region after `cut_reinforcement_ribs` (lines 408-432): the tray with
one opaque rib cutter subtracted at each angle in `(0, wedge_size)` and
each radial offset of `rib_radii`. -/
def cut_reinforcement_ribs_region (st : ModuleState) (o : TrayOpaque) (tray : Region)
    (inner_radius outer_radius wedge_size : ℚ) : Region := fun p =>
  tray p ∧
  ∀ a ∈ [(0 : ℚ), wedge_size], ∀ r ∈ rib_radii st inner_radius outer_radius,
    ¬ o.ribShape a r p

/-- Region of the solid returned by `build_tray` (lines 460-490): revolve
the silhouette, fillet the vertical edges (kept region intersection),
chamfer the radial edges, add the handle, cut the ribs, shell from the
top face only when `wall_thickness > 0` (kept region intersection), and
subtract the label when requested. -/
def build_tray_region (st : ModuleState) (o : TrayOpaque)
    (inner_radius spool_outer_radius spool_height wedge_size wall_thickness : ℚ)
    (label : Bool) : Region :=
  let outer_radius := outer_radius_of st spool_outer_radius
  let height := height_of st spool_height
  let t1 := tray_profile_rev o wedge_size
  let t2 := rInter t1 o.filletKeep
  let t3 := chamfer_tray_radial_edges_region st t2 outer_radius height wedge_size
  let t4 := add_handle_region st t3 outer_radius height wedge_size
  let t5 := cut_reinforcement_ribs_region st o t4 inner_radius outer_radius wedge_size
  let t6 := if 0 < wall_thickness then rInter t5 (o.shellKeep wall_thickness) else t5
  if label then rCut t6 o.labelCut else t6

/-! ### Stateful wrappers

The source reads the module globals and never assigns them; the faithful
state-passing translation therefore returns the state unchanged. -/

/-- `build_base` as a state-passing computation over the module globals:
the body only reads them. -/
def build_base_st (st : ModuleState)
    (inner_radius spool_outer_radius spool_height wedge_size : ℚ) :
    Region × ModuleState :=
  (build_base_region st inner_radius spool_outer_radius spool_height wedge_size, st)

/-- `build_placeholder` as a state-passing computation over the module
globals. -/
def build_placeholder_st (st : ModuleState)
    (inner_radius spool_outer_radius spool_height wedge_size : ℚ) :
    Region × ModuleState :=
  (build_placeholder_region st inner_radius spool_outer_radius spool_height
    wedge_size, st)

/-- `build_tray` as a state-passing computation over the module
globals. -/
def build_tray_st (st : ModuleState) (o : TrayOpaque)
    (inner_radius spool_outer_radius spool_height wedge_size wall_thickness : ℚ)
    (label : Bool) : Region × ModuleState :=
  (build_tray_region st o inner_radius spool_outer_radius spool_height wedge_size
    wall_thickness label, st)

/-! ### Auxiliary notions used by the claim statements -/

/-- Whether a tray construction step is a shell application. -/
def isShellStep : TrayStep → Bool
  | TrayStep.shellFromTop _ => true
  | _ => false

/-- The material of a copy of a solid rotated by `+a` degrees about the
vertical axis. -/
def rotated_copy (a : ℚ) (A : Region) : Region := fun p => A (rotPt a p)

/-- The open interior of the outer interlink arm of `interlink_claws`
(lines 225-230): strict versions of the arm sector's bounds. -/
def claw_arm_outer_open_region (st : ModuleState) (inner_radius wedge_size : ℚ) :
    Region := fun p =>
  (wedge_size : ℝ) < p.theta ∧ p.theta < (wedge_size : ℝ) + ring_claw_span ∧
  ((claw_outer_radius st inner_radius : ℚ) : ℝ) - st.nozzle_diameter
      - ring_claw_thickness st < p.rho + p.z ∧
  p.rho + p.z < ((claw_outer_radius st inner_radius : ℚ) : ℝ) - st.nozzle_diameter ∧
  0 < p.z ∧ p.z < (st.ring_height : ℝ)

/-- The radial segment at angle `theta`, height `z`, radii in `(lo, hi]`,
meets neither of the two solids: it is a material-free gap between
them. -/
def radial_gap_free (A B : Region) (theta z lo hi : ℝ) : Prop :=
  ∀ rho : ℝ, lo < rho → rho ≤ hi → ¬ A ⟨theta, rho, z⟩ ∧ ¬ B ⟨theta, rho, z⟩

/-- The radial segment at angle `theta`, height `z`, radii in `(lo, hi]`,
lies entirely inside the solid: material is present throughout. -/
def radial_band_filled (B : Region) (theta z lo hi : ℝ) : Prop :=
  ∀ rho : ℝ, lo < rho → rho ≤ hi → B ⟨theta, rho, z⟩

/-! ## Theorems -/

/-! ### Generic interpolation lemmas for the polar-quadrilateral solids -/

/-- A value between `min x y` and `max x y` is a unit-interval
interpolation between `x` and `y`. -/
lemma exists_unit_interp {x y v : ℝ} (h1 : min x y ≤ v) (h2 : v ≤ max x y) :
    ∃ t : ℝ, 0 ≤ t ∧ t ≤ 1 ∧ v = x + t * (y - x) := by
  rcases lt_trichotomy x y with hxy | hxy | hxy
  · rw [min_eq_left hxy.le] at h1
    rw [max_eq_right hxy.le] at h2
    have hd : (0 : ℝ) < y - x := by linarith
    have hne : y - x ≠ 0 := ne_of_gt hd
    refine ⟨(v - x) / (y - x), div_nonneg (by linarith) hd.le, ?_, ?_⟩
    · rw [div_le_one hd]
      linarith
    · field_simp
  · refine ⟨0, le_refl 0, zero_le_one, ?_⟩
    rw [min_eq_left hxy.le] at h1
    rw [max_eq_left hxy.ge] at h2
    simp only [zero_mul, add_zero]
    linarith
  · rw [min_eq_right hxy.le] at h1
    rw [max_eq_left hxy.le] at h2
    have hd : (0 : ℝ) < x - y := by linarith
    have hne : x - y ≠ 0 := ne_of_gt hd
    refine ⟨(x - v) / (x - y), div_nonneg (by linarith) hd.le, ?_, ?_⟩
    · rw [div_le_one hd]
      linarith
    · field_simp
      ring

/-- A unit-interval interpolation between `x` and `y` stays between
`min x y` and `max x y`. -/
lemma interp_between {x y t : ℝ} (h0 : 0 ≤ t) (h1 : t ≤ 1) :
    min x y ≤ x + t * (y - x) ∧ x + t * (y - x) ≤ max x y := by
  rcases le_total x y with h | h
  · rw [min_eq_left h, max_eq_right h]
    constructor <;> nlinarith
  · rw [min_eq_right h, max_eq_left h]
    constructor <;> nlinarith

/-- Explicit bounds characterisation of `ring_rect_region` membership. -/
lemma ring_rect_mem_iff (st : ModuleState) (ri ro a b : ℚ) (p : Pt) :
    ring_rect_region st ri ro a b p ↔
      0 ≤ p.z ∧ p.z ≤ (st.ring_height : ℝ) ∧
      min (ri : ℝ) (ro : ℝ) ≤ p.rho + p.z ∧ p.rho + p.z ≤ max (ri : ℝ) (ro : ℝ) ∧
      min (a : ℝ) (b : ℝ) ≤ p.theta ∧ p.theta ≤ max (a : ℝ) (b : ℝ) := by
  unfold ring_rect_region ring_pgram_region
  constructor
  · rintro ⟨hz0, hz1, t, ht0, ht1, hrad, hth0, hth1⟩
    have hR := interp_between (x := (ri : ℝ)) (y := (ro : ℝ)) ht0 ht1
    simp only [sub_self, mul_zero, add_zero] at hth0 hth1
    exact ⟨hz0, hz1, hrad ▸ hR.1, hrad ▸ hR.2, hth0, hth1⟩
  · rintro ⟨hz0, hz1, hr0, hr1, hth0, hth1⟩
    obtain ⟨t, ht0, ht1, htv⟩ := exists_unit_interp hr0 hr1
    exact ⟨hz0, hz1, t, ht0, ht1, htv, by
      simp only [sub_self, mul_zero, add_zero]
      exact hth0, by
      simp only [sub_self, mul_zero, add_zero]
      exact hth1⟩

/-- Outer bounds satisfied by every point of a `ring_pgram_region`. -/
lemma ring_pgram_bounds {st : ModuleState} {ri ro a_si a_so a_ei a_eo : ℚ} {p : Pt}
    (h : ring_pgram_region st ri ro a_si a_so a_ei a_eo p) :
    0 ≤ p.z ∧ p.z ≤ (st.ring_height : ℝ) ∧
    min (ri : ℝ) (ro : ℝ) ≤ p.rho + p.z ∧ p.rho + p.z ≤ max (ri : ℝ) (ro : ℝ) ∧
    min (min (a_si : ℝ) (a_so : ℝ)) (min (a_ei : ℝ) (a_eo : ℝ)) ≤ p.theta ∧
    p.theta ≤ max (max (a_si : ℝ) (a_so : ℝ)) (max (a_ei : ℝ) (a_eo : ℝ)) := by
  obtain ⟨hz0, hz1, t, ht0, ht1, hrad, hth0, hth1⟩ := h
  have hR := interp_between (x := (ri : ℝ)) (y := (ro : ℝ)) ht0 ht1
  have hS := interp_between (x := (a_si : ℝ)) (y := (a_so : ℝ)) ht0 ht1
  have hE := interp_between (x := (a_ei : ℝ)) (y := (a_eo : ℝ)) ht0 ht1
  refine ⟨hz0, hz1, hrad ▸ hR.1, hrad ▸ hR.2, ?_, ?_⟩
  · exact le_trans (le_min (le_trans (min_le_left _ _) hS.1)
      (le_trans (min_le_right _ _) hE.1)) hth0
  · exact le_trans hth1 (max_le (le_trans hS.2 (le_max_left _ _))
      (le_trans hE.2 (le_max_right _ _)))

/-! ### Decomposition of `build_base` into its additive parts -/

/-- Any point of `build_base` lies in the pre-interlink body away from the
outer slot cut, or in one of the interlink arms, or in one of the clipped
interlink tips. -/
lemma build_base_cases {st : ModuleState} {i so sh w : ℚ} {p : Pt}
    (h : build_base_region st i so sh w p) :
    ((rUnion
        (add_side_rails_region st (ring_root_rev st i w) i (outer_radius_of st so)
          (height_of st sh) w)
        (build_outer_fence_region st (outer_radius_of st so) w)) p ∧
      ¬ claw_slot_outer_region st i p) ∨
    claw_arm_outer_region st i w p ∨
    claw_arm_inner_region st i p ∨
    (claw_tip_outer_region st i w p ∧ ¬ claw_tip_outer_clear_region st i w p) ∨
    (claw_tip_inner_region st i p ∧ ¬ claw_tip_inner_clear_region st i p) := by
  unfold build_base_region interlink_claws_region rCut rUnion at h
  unfold rUnion
  tauto

/-- Any point of the pre-interlink body lies in the revolved ring root, in
a rail (within the cleanup annulus), in the fence, or in the clipped tab
ball. -/
lemma pre_interlink_cases {st : ModuleState} {i so sh w : ℚ} {p : Pt}
    (h : (rUnion
        (add_side_rails_region st (ring_root_rev st i w) i (outer_radius_of st so)
          (height_of st sh) w)
        (build_outer_fence_region st (outer_radius_of st so) w)) p) :
    ring_root_rev st i w p ∨
    ((rail_region st (outer_radius_of st so) w 0 p ∨
      rail_region st (outer_radius_of st so) w 1 p) ∧
      rails_cleanup_region st i (outer_radius_of st so) (height_of st sh) p) ∨
    fence_region st (outer_radius_of st so) w p ∨
    (fence_tab_ball_region st (outer_radius_of st so) w p ∧
      fence_tab_keep_region st (outer_radius_of st so) w p) := by
  unfold add_side_rails_region build_outer_fence_region rUnion rInter at h
  tauto

/-! ### C8 — derived dimensions -/

/-- C8: for every call, `build_base` and `build_tray` derive
`outer_radius` as `spool_outer_radius + beyond_edge` with
`beyond_edge = 10` mm and `height` as `spool_height - ring_height` with
`ring_height = 4` mm.  `outer_radius_of` and `height_of` are exactly the
head derivations of both assemblers. -/
theorem c8_derived_dimensions :
    ∀ spool_outer_radius spool_height : ℚ,
      outer_radius_of initState spool_outer_radius = spool_outer_radius + 10 ∧
      height_of initState spool_height = spool_height - 4 ∧
      initState.beyond_edge = 10 ∧ initState.ring_height = 4 := by
  intro so sh
  refine ⟨?_, ?_, rfl, rfl⟩ <;> simp [outer_radius_of, height_of, initState]

/-! ### C9 — purity and call independence -/

/-- C9: `build_base`, `build_tray` and `build_placeholder` are pure: as
state-passing computations over the module globals they return the state
unchanged, and the solid produced by any call is unaffected by other
calls having run before it, so constructions are independent of call
order. -/
theorem c9_purity_and_independence :
    ∀ (st : ModuleState) (o : TrayOpaque)
      (i so sh w i2 so2 sh2 w2 wall wall2 : ℚ) (lbl lbl2 : Bool),
      (build_base_st st i so sh w).2 = st ∧
      (build_placeholder_st st i so sh w).2 = st ∧
      (build_tray_st st o i so sh w wall lbl).2 = st ∧
      (build_base_st ((build_tray_st st o i2 so2 sh2 w2 wall2 lbl2).2) i so sh w).1 =
        (build_base_st st i so sh w).1 ∧
      (build_tray_st ((build_base_st st i2 so2 sh2 w2).2) o i so sh w wall lbl).1 =
        (build_tray_st st o i so sh w wall lbl).1 ∧
      (build_placeholder_st ((build_base_st st i2 so2 sh2 w2).2) i so sh w).1 =
        (build_placeholder_st st i so sh w).1 := by
  intros
  exact ⟨rfl, rfl, rfl, rfl, rfl, rfl⟩

/-! ### C10 — driver call sites pass a clearance argument the assemblers
do not accept -/

/-- C10: `build_base` and `build_placeholder` accept exactly four
parameters; every `build_base`/`build_placeholder` call in
`generate_all.py` (keyword `additional_clearance=...`) and
`single_wedge.py` (fifth positional argument) therefore fails Python
argument binding with a `TypeError`, and the body — hence any geometry
construction — never runs; the `build_tray` call, whose fifth positional
argument is `wall_thickness`, binds fine. -/
theorem c10_driver_calls_raise_type_error :
    build_base_sig.params.length = 4 ∧
    build_placeholder_sig.params.length = 4 ∧
    pyBind build_base_sig generate_all_build_base_call =
      PyBindResult.typeErrorUnexpectedKeyword ∧
    pyBind build_placeholder_sig generate_all_build_placeholder_call =
      PyBindResult.typeErrorUnexpectedKeyword ∧
    pyBind build_base_sig single_wedge_build_base_call =
      PyBindResult.typeErrorTooManyPositional ∧
    pyBind build_placeholder_sig single_wedge_build_placeholder_call =
      PyBindResult.typeErrorTooManyPositional ∧
    (∀ body, pyInvoke build_base_sig generate_all_build_base_call body = none) ∧
    (∀ body, pyInvoke build_placeholder_sig generate_all_build_placeholder_call body
      = none) ∧
    (∀ body, pyInvoke build_base_sig single_wedge_build_base_call body = none) ∧
    (∀ body, pyInvoke build_placeholder_sig single_wedge_build_placeholder_call body
      = none) ∧
    pyBind build_tray_sig generate_all_build_tray_call = PyBindResult.bound := by
  refine ⟨rfl, rfl, by decide, by decide, by decide, by decide, ?_, ?_, ?_, ?_,
    by decide⟩ <;>
    · intro body
      unfold pyInvoke
      rw [if_neg (by decide)]

/-! ### C7 — no fail-fast parameter validation exists -/

/-- C7 counterexample: with `wedge_size = 500` (out of range) and
`inner_radius = -3` (non-positive), `build_base` and `build_tray` do not
fail fast: no validation error is raised and the stage sequence starts
with the ring-root revolve kernel call, so the invalid parameters are
passed straight to geometry construction. -/
theorem c7_counterexample_no_fail_fast :
    build_base_outcome (-3) 100 70 500 = CallOutcome.ok ∧
    CallOutcome.ok ≠ CallOutcome.validationError ∧
    (build_base_stages (-3) 100 70 500).head? = some BaseStage.revolveRingRoot ∧
    build_tray_outcome (-3) 100 70 500 0 = CallOutcome.ok := by
  exact ⟨rfl, by decide, rfl, rfl⟩

/-- C7 amended: the part assemblers perform no parameter validation at
all: for every argument tuple — in range or not — `build_base` and
`build_tray` proceed without error through the same kernel-backed stage
sequence, beginning with the profile revolve; invalid parameters are
handed to geometry construction rather than being rejected first. -/
theorem c7_amended_no_validation :
    ∀ inner_radius spool_outer_radius spool_height wedge_size wall_thickness : ℚ,
      build_base_outcome inner_radius spool_outer_radius spool_height wedge_size =
        CallOutcome.ok ∧
      build_base_stages inner_radius spool_outer_radius spool_height wedge_size =
        [BaseStage.revolveRingRoot, BaseStage.addSideRails,
         BaseStage.unionOuterFence, BaseStage.interlinkClaws,
         BaseStage.cutRingChamfer] ∧
      build_tray_outcome inner_radius spool_outer_radius spool_height wedge_size
        wall_thickness = CallOutcome.ok := by
  intros
  exact ⟨rfl, rfl, rfl⟩

/-! ### C6 — conditional shell -/

/-- C6: `build_tray` applies the shell operation from the top face exactly
when `wall_thickness > 0`: the step sequence contains a shell step iff
`wall_thickness > 0`, any shell step carries exactly the requested
thickness, and at `wall_thickness = 0` the sequence is the unshelled
(solid, vase-mode) pipeline. -/
theorem c6_conditional_shell :
    ∀ (wall_thickness : ℚ) (label : Bool),
      ((∃ t, TrayStep.shellFromTop t ∈ build_tray_steps wall_thickness label) ↔
        0 < wall_thickness) ∧
      (build_tray_steps wall_thickness label).filter isShellStep =
        (if 0 < wall_thickness then [TrayStep.shellFromTop wall_thickness] else []) ∧
      build_tray_steps 0 label =
        [TrayStep.revolveTrayProfile, TrayStep.filletVerticalEdges,
         TrayStep.chamferRadialEdges, TrayStep.addHandle,
         TrayStep.cutReinforcementRibs] ++
        (if label then [TrayStep.cutLabel] else []) := by
  intro wall label
  refine ⟨?_, ?_, by norm_num [build_tray_steps]⟩
  · constructor
    · rintro ⟨t, ht⟩
      by_contra hw
      rcases label <;> simp [build_tray_steps, hw] at ht
    · intro hw
      exact ⟨wall, by simp [build_tray_steps, hw]⟩
  · by_cases hw : 0 < wall <;>
      rcases label <;>
      simp [build_tray_steps, hw, isShellStep, List.filter]

/-! ### C4 — reinforcement-rib arithmetic -/

/-- C4 counterexample: at `inner_radius = 55.22`, derived
`outer_radius = 110` (the tray for the 100 mm spool), the span is `44`
and the count is `5` as the claim says, but the spacing the code computes
is `int(44/5) = 8`, not `44/5 = 8.8` as the claim states; and the ribs at
radial offsets `8,16,24,32,40` are not evenly distributed across the
span: the last gap to the span end is `4`, not `8`. -/
theorem c4_counterexample_spacing_truncated :
    rib_span initState (2761/50) 110 = 44 ∧
    rib_count initState (2761/50) 110 = 5 ∧
    rib_spacing initState (2761/50) 110 = 8 ∧
    (rib_span initState (2761/50) 110 : ℚ) /
      (rib_count initState (2761/50) 110 : ℚ) = 44/5 ∧
    ((rib_spacing initState (2761/50) 110 : ℚ) ≠
      (rib_span initState (2761/50) 110 : ℚ) /
        (rib_count initState (2761/50) 110 : ℚ)) ∧
    rib_radii initState (2761/50) 110 = [8, 16, 24, 32, 40] ∧
    (44 : ℤ) - 40 ≠ 8 := by
  have h1 : rib_span initState (2761/50) 110 = 44 := by
    norm_num [rib_span, pyInt, initState]
  have h2 : rib_count initState (2761/50) 110 = 5 := by
    rw [rib_count, h1]
    norm_num [pyInt, rib_spacing_target]
  have h3 : rib_spacing initState (2761/50) 110 = 8 := by
    rw [rib_spacing, h1, h2]
    norm_num [pyInt]
  have h4 : rib_radii initState (2761/50) 110 = [8, 16, 24, 32, 40] := by
    rw [rib_radii, h1, h3]
    norm_num [pyRange]
    decide
  refine ⟨h1, h2, h3, ?_, ?_, h4, by decide⟩
  · rw [h1, h2]
    norm_num
  · rw [h1, h2, h3]
    norm_num

/-- C4 amended: with a nonnegative untruncated span and a positive rib
count, `rib_span` is the integer truncation of
`outer_radius - beyond_edge - inner_radius`, the count is
`floor(rib_span / 7.5)` as claimed, but the spacing is the integer
truncation `floor(rib_span / rib_count)` — not the exact quotient — and
the rib offsets form the arithmetic progression of that truncated step
below the span, so the gap from the last rib to the span end can differ
from the others. -/
theorem c4_amended_rib_arithmetic :
    ∀ inner_radius outer_radius : ℚ,
      0 ≤ outer_radius - initState.beyond_edge - inner_radius →
      0 < rib_count initState inner_radius outer_radius →
      rib_span initState inner_radius outer_radius =
        Int.floor (outer_radius - initState.beyond_edge - inner_radius) ∧
      rib_count initState inner_radius outer_radius =
        Int.floor ((rib_span initState inner_radius outer_radius : ℚ) /
          rib_spacing_target) ∧
      rib_spacing_target = 15/2 ∧
      rib_spacing initState inner_radius outer_radius =
        Int.floor ((rib_span initState inner_radius outer_radius : ℚ) /
          (rib_count initState inner_radius outer_radius : ℚ)) ∧
      rib_radii initState inner_radius outer_radius =
        pyRange (rib_spacing initState inner_radius outer_radius)
          (rib_span initState inner_radius outer_radius)
          (rib_spacing initState inner_radius outer_radius) := by
  intro i o hspan hcount
  have hs0 : (0 : ℚ) ≤ o - initState.beyond_edge - i := hspan
  have h1 : rib_span initState i o = Int.floor (o - initState.beyond_edge - i) := by
    rw [rib_span, pyInt, if_neg (by exact not_lt.mpr hs0)]
  have hspan0 : 0 ≤ rib_span initState i o := by
    rw [h1]
    exact Int.floor_nonneg.mpr hs0
  have h2 : rib_count initState i o =
      Int.floor ((rib_span initState i o : ℚ) / rib_spacing_target) := by
    rw [rib_count, pyInt, if_neg]
    rw [not_lt]
    apply div_nonneg (by exact_mod_cast hspan0)
    norm_num [rib_spacing_target]
  have h3 : rib_spacing initState i o =
      Int.floor ((rib_span initState i o : ℚ) / (rib_count initState i o : ℚ)) := by
    rw [rib_spacing, pyInt, if_neg]
    rw [not_lt]
    apply div_nonneg (by exact_mod_cast hspan0)
    exact_mod_cast hcount.le
  exact ⟨h1, h2, rfl, h3, rfl⟩

/-- Witness for the amended C4 theorem: applied at
`inner_radius = 55.22`, `outer_radius = 110`, with both hypotheses
discharged. -/
theorem c4_amended_rib_arithmetic_witness :
    ((0 : ℚ) ≤ 110 - initState.beyond_edge - 2761/50 ∧
      0 < rib_count initState (2761/50) 110) ∧
    (rib_span initState (2761/50) 110 =
        Int.floor ((110 : ℚ) - initState.beyond_edge - 2761/50) ∧
      rib_count initState (2761/50) 110 =
        Int.floor ((rib_span initState (2761/50) 110 : ℚ) / rib_spacing_target) ∧
      rib_spacing_target = 15/2 ∧
      rib_spacing initState (2761/50) 110 =
        Int.floor ((rib_span initState (2761/50) 110 : ℚ) /
          (rib_count initState (2761/50) 110 : ℚ)) ∧
      rib_radii initState (2761/50) 110 =
        pyRange (rib_spacing initState (2761/50) 110)
          (rib_span initState (2761/50) 110)
          (rib_spacing initState (2761/50) 110)) := by
  have h0 : (0 : ℚ) ≤ 110 - initState.beyond_edge - 2761/50 := by
    norm_num [initState]
  have hc : 0 < rib_count initState (2761/50) 110 := by
    have h1 : rib_span initState (2761/50) 110 = 44 := by
      norm_num [rib_span, pyInt, initState]
    rw [rib_count, h1]
    norm_num [pyInt, rib_spacing_target]
  exact ⟨⟨h0, hc⟩, c4_amended_rib_arithmetic (2761/50) 110 h0 hc⟩

/-! ### C5 — label text -/

/-- C5: the text `build_tray` engraves on the tray's underside is the
version header `R2S4 1.0` followed by the integer-truncated tuple
`(inner_radius, spool_outer_radius, spool_height, wedge_size)` — the
spool's own outer radius, not the derived `outer_radius`; concretely, the
tray for `(55.22, 100, 70, 30)` is labelled `55 100 70 30`. -/
theorem c5_label_is_truncated_tuple :
    (∀ inner_radius spool_outer_radius spool_height wedge_size : ℚ,
      (build_tray_label initState inner_radius spool_outer_radius spool_height
          wedge_size).1 =
        "R2S4 1.0\n" ++ label_tuple_render (pyInt inner_radius)
          (pyInt spool_outer_radius) (pyInt spool_height) (pyInt wedge_size)) ∧
    (build_tray_label initState (2761/50) 100 70 30).1 = "R2S4 1.0\n55 100 70 30" := by
  constructor
  · intro i so sh w
    simp [build_tray_label, build_label_text, label_tuple_render, String.append_assoc]
  · have h1 : pyInt (2761/50) = 55 := by norm_num [pyInt]
    have h2 : pyInt 100 = 100 := by norm_num [pyInt]
    have h3 : pyInt 70 = 70 := by norm_num [pyInt]
    have h4 : pyInt 30 = 30 := by norm_num [pyInt]
    show build_label_text (2761/50) 100 70 30 = "R2S4 1.0\n55 100 70 30"
    rw [build_label_text, h1, h2, h3, h4]
    decide

/-! ### C1 — the placeholder is exactly the base intersected with the full
ring-root sweep -/

/-- C1: for every module state and parameter tuple, the region of
`build_placeholder` coincides — pointwise and as a region — with the
intersection of the `build_base` region for the same tuple with the
ring-root profile revolved through the full 360°, which is also the
spec's construction formula. -/
theorem c1_placeholder_is_base_inter_full_ring :
    ∀ (st : ModuleState) (inner_radius spool_outer_radius spool_height
        wedge_size : ℚ),
      build_placeholder_region st inner_radius spool_outer_radius spool_height
          wedge_size =
        placeholder_spec_region st inner_radius spool_outer_radius spool_height
          wedge_size ∧
      ∀ p : Pt,
        build_placeholder_region st inner_radius spool_outer_radius spool_height
            wedge_size p ↔
          build_base_region st inner_radius spool_outer_radius spool_height
            wedge_size p ∧
          ring_root_rev360 st inner_radius p := by
  intros
  exact ⟨rfl, fun p => Iff.rfl⟩

/-! ### Trigonometric support lemmas (degrees) -/

lemma sind_pos {a : ℝ} (h0 : 0 < a) (h1 : a < 180) : 0 < sind a := by
  have hπ : (0 : ℝ) < Real.pi := Real.pi_pos
  apply Real.sin_pos_of_pos_of_lt_pi
  · positivity
  · nlinarith

lemma sind_odd (a : ℝ) : sind (-a) = -sind a := by
  unfold sind
  rw [show -a * Real.pi / 180 = -(a * Real.pi / 180) by ring, Real.sin_neg]

lemma sind_neg_of_neg {a : ℝ} (h0 : -180 < a) (h1 : a < 0) : sind a < 0 := by
  have h := sind_pos (a := -a) (by linarith) (by linarith)
  rw [sind_odd] at h
  linarith

lemma cosd_neg_right {a : ℝ} (h0 : 90 < a) (h1 : a ≤ 180) : cosd a < 0 := by
  have hπ : (0 : ℝ) < Real.pi := Real.pi_pos
  apply Real.cos_neg_of_pi_div_two_lt_of_lt
  · nlinarith
  · nlinarith

lemma cosd_even (a : ℝ) : cosd (-a) = cosd a := by
  unfold cosd
  rw [show -a * Real.pi / 180 = -(a * Real.pi / 180) by ring, Real.cos_neg]

lemma cosd_neg_left {a : ℝ} (h0 : -180 ≤ a) (h1 : a < -90) : cosd a < 0 := by
  rw [show a = -(-a) by ring, cosd_even]
  exact cosd_neg_right (by linarith) (by linarith)

lemma sind_lt_sind {a b : ℝ} (ha : -90 ≤ a) (hb : b ≤ 90) (hab : a < b) :
    sind a < sind b := by
  have hπ : (0 : ℝ) < Real.pi := Real.pi_pos
  exact Real.strictMonoOn_sin ⟨by nlinarith, by nlinarith⟩
    ⟨by nlinarith, by nlinarith⟩ (by nlinarith)

lemma sind_le_sind {a b : ℝ} (ha : -90 ≤ a) (hb : b ≤ 90) (hab : a ≤ b) :
    sind a ≤ sind b := by
  rcases eq_or_lt_of_le hab with h | h
  · rw [h]
  · exact (sind_lt_sind ha hb h).le

lemma sind_thirty : sind 30 = 1/2 := by
  unfold sind
  rw [show (30 : ℝ) * Real.pi / 180 = Real.pi / 6 by ring, Real.sin_pi_div_six]

lemma sind_add_360 (a : ℝ) : sind (a + 360) = sind a := by
  unfold sind
  rw [show (a + 360) * Real.pi / 180 = a * Real.pi / 180 + 2 * Real.pi by ring,
    Real.sin_add_two_pi]

lemma cosd_add_360 (a : ℝ) : cosd (a + 360) = cosd a := by
  unfold cosd
  rw [show (a + 360) * Real.pi / 180 = a * Real.pi / 180 + 2 * Real.pi by ring,
    Real.cos_add_two_pi]

lemma sind_seven_half_lb : (8 / 81 : ℝ) < sind (15/2) := by
  unfold sind
  rw [show (15/2 : ℝ) * Real.pi / 180 = Real.pi / 24 by ring]
  have hπ1 : 3.14 < Real.pi := Real.pi_gt_d2
  have hπ2 : Real.pi < 3.15 := Real.pi_lt_d2
  have h0 : (0 : ℝ) < Real.pi / 24 := by positivity
  have h1 : Real.pi / 24 ≤ 1 := by linarith
  have h5 := Real.sin_gt_sub_cube h0 h1
  have hx2 : Real.pi / 24 < 21 / 160 := by linarith
  have hx1 : 157 / 1200 < Real.pi / 24 := by linarith
  have hcube : (Real.pi / 24) ^ 3 < (21 / 160) ^ 3 :=
    pow_lt_pow_left₀ hx2 (by positivity) (by norm_num)
  nlinarith [h5, hx1, hcube]

lemma angle_within_90 {a : ℝ} (h1 : -180 < a) (h2 : a ≤ 180) (hc : 0 ≤ cosd a) :
    -90 ≤ a ∧ a ≤ 90 := by
  constructor
  · by_contra h
    exact absurd hc (not_le.mpr (cosd_neg_left (by linarith) (by linarith)))
  · by_contra h
    exact absurd hc (not_le.mpr (cosd_neg_right (by linarith) h2))

lemma small_sin_angle {a : ℝ} (h1 : -180 < a) (h2 : a ≤ 180) (hc : 0 ≤ cosd a)
    (hs1 : sind a < sind (15/2)) (hs2 : -sind (15/2) < sind a) :
    -15/2 < a ∧ a < 15/2 := by
  obtain ⟨h90a, h90b⟩ := angle_within_90 h1 h2 hc
  constructor
  · by_contra h
    rw [not_lt] at h
    have hle := sind_le_sind (a := a) (b := -(15/2)) h90a (by norm_num) (by linarith)
    rw [sind_odd] at hle
    linarith
  · by_contra h
    rw [not_lt] at h
    have hle := sind_le_sind (a := (15/2 : ℝ)) (b := a) (by norm_num) h90b h
    linarith

/-- Angular bound for material of the rail at the `0°` boundary: a point
with both Cartesian coordinates constrained by the rail triangle
(`x ≥ 0`, `0 ≤ y` with `y` at most `2`) and radius at least `81/4` lies
within `[0°, 7.5°)`. -/
lemma rail_angle_zero_side {θ ρ : ℝ} (h1 : -180 < θ) (h2 : θ ≤ 180) (hρ : 81/4 ≤ ρ)
    (hx : 0 ≤ ρ * cosd θ) (hy0 : 0 ≤ ρ * sind θ) (hy2 : ρ * sind θ ≤ 2) :
    0 ≤ θ ∧ θ < 15/2 := by
  have hρ0 : (0 : ℝ) < ρ := by linarith
  have hc : 0 ≤ cosd θ := by
    by_contra h
    push_neg at h
    nlinarith [mul_pos hρ0 (neg_pos.mpr h)]
  have hs0 : 0 ≤ sind θ := by
    by_contra h
    push_neg at h
    nlinarith [mul_pos hρ0 (neg_pos.mpr h)]
  have hsmall : sind θ ≤ 8/81 := by
    nlinarith [mul_le_mul_of_nonneg_left hρ hs0]
  have hb := small_sin_angle h1 h2 hc
    (lt_of_le_of_lt hsmall sind_seven_half_lb)
    (by linarith [sind_seven_half_lb])
  refine ⟨?_, hb.2⟩
  by_contra h
  push_neg at h
  exact absurd hs0 (not_le.mpr (sind_neg_of_neg (by linarith) h))

/-- Angular bound for material of the rail at the `wedge_size` boundary,
in the frame of that boundary (`α` is the angle minus `wedge_size`). -/
lemma rail_angle_wedge_side {α ρ : ℝ} (h1 : -300 < α) (h2 : α ≤ 165) (hρ : 81/4 ≤ ρ)
    (hx : 0 ≤ ρ * cosd α) (hy0 : ρ * sind α ≤ 0) (hy2 : -2 ≤ ρ * sind α) :
    -15/2 < α ∧ α ≤ 0 := by
  have hρ0 : (0 : ℝ) < ρ := by linarith
  have hc : 0 ≤ cosd α := by
    by_contra h
    push_neg at h
    nlinarith [mul_pos hρ0 (neg_pos.mpr h)]
  have hsle : sind α ≤ 0 := by
    by_contra h
    push_neg at h
    nlinarith [mul_pos hρ0 h]
  have hsge : -(8/81) ≤ sind α := by
    nlinarith [mul_le_mul_of_nonneg_left hρ (neg_nonneg.mpr hsle)]
  by_cases hcase : α ≤ -180
  · exfalso
    have hs' := sind_add_360 α
    have hc' := cosd_add_360 α
    rcases lt_or_eq_of_le (show α + 360 ≤ 180 by linarith) with hl | he
    · have := sind_pos (a := α + 360) (by linarith) hl
      linarith [hs' ▸ this]
    · have := cosd_neg_right (a := α + 360) (by linarith) (le_of_eq he)
      linarith [hc' ▸ this]
  · push_neg at hcase
    have hb := small_sin_angle (a := α) hcase (by linarith) hc
      (lt_of_le_of_lt hsle (by linarith [sind_seven_half_lb]))
      (by linarith [sind_seven_half_lb])
    refine ⟨hb.1, ?_⟩
    by_contra h
    push_neg at h
    have := sind_pos (a := α) h (by linarith)
    linarith

/-- Angular bound for material of the handle keep prism, in the frame of
the wedge midline (`β` is the angle minus `wedge_size/2`). -/
lemma keep_angle_mid {β ρ : ℝ} (h1 : -240 < β) (h2 : β ≤ 180) (hρ0 : 0 ≤ ρ)
    (hx : 25 ≤ ρ * cosd β) (hy1 : -2 ≤ ρ * sind β) (hy2 : ρ * sind β ≤ 2) :
    -15/2 < β ∧ β < 15/2 := by
  have hρ25 : 25 ≤ ρ := by
    have hcb : cosd β ≤ 1 := Real.cos_le_one _
    nlinarith
  have hρp : (0 : ℝ) < ρ := by linarith
  have hc : 0 < cosd β := by
    by_contra h
    push_neg at h
    nlinarith [mul_nonneg hρ0 (neg_nonneg.mpr h)]
  by_cases hcase : β ≤ -180
  · exfalso
    have hc' := cosd_add_360 β
    have : cosd (β + 360) < 0 := cosd_neg_right (by linarith) (by linarith)
    linarith [hc' ▸ this]
  · push_neg at hcase
    have hs2 : sind β ≤ 8/81 := by
      rcases le_or_lt 0 (sind β) with h | h
      · nlinarith [mul_le_mul_of_nonneg_left hρ25 h]
      · linarith
    have hs1 : -(8/81) ≤ sind β := by
      rcases le_or_lt (sind β) 0 with h | h
      · nlinarith [mul_le_mul_of_nonneg_left hρ25 (neg_nonneg.mpr h)]
      · linarith
    exact small_sin_angle hcase h2 hc.le
      (lt_of_le_of_lt hs2 sind_seven_half_lb)
      (by linarith [sind_seven_half_lb])

/-! ### Decomposition of `build_tray` into its additive parts -/

/-- Any point of `build_tray` lies in the revolved silhouette or in the
handle boss (clipped to the keep prism): every other pipeline step only
removes material. -/
lemma build_tray_cases {st : ModuleState} {o : TrayOpaque} {i so sh w wall : ℚ}
    {lbl : Bool} {p : Pt} (h : build_tray_region st o i so sh w wall lbl p) :
    tray_profile_rev o w p ∨
    (handle_add_ball_region st (outer_radius_of st so) (height_of st sh) w p ∧
      handle_keep_region st (outer_radius_of st so) (height_of st sh) w p) := by
  have key : ∀ q : Pt,
      cut_reinforcement_ribs_region st o
        (add_handle_region st
          (chamfer_tray_radial_edges_region st
            (rInter (tray_profile_rev o w) o.filletKeep)
            (outer_radius_of st so) (height_of st sh) w)
          (outer_radius_of st so) (height_of st sh) w)
        i (outer_radius_of st so) w q →
      tray_profile_rev o w q ∨
      (handle_add_ball_region st (outer_radius_of st so) (height_of st sh) w q ∧
        handle_keep_region st (outer_radius_of st so) (height_of st sh) w q) := by
    intro q hq
    rcases hq.1 with hc | hb
    · exact Or.inl hc.1.1.1.1.1.1
    · exact Or.inr hb
  unfold build_tray_region at h
  split_ifs at h
  · exact key p h.1.1
  · exact key p h.1
  · exact key p h.1
  · exact key p h

/-! ### Angular-span lemmas -/

/-- Every point of `build_base` at the module constants, with canonical
angle coordinate, lies within `[-2°, wedge_size + 2°]`. -/
lemma base_span {i so sh w : ℚ} {p : Pt} (hi : (20 : ℚ) ≤ i) (hw1 : (15 : ℚ) ≤ w)
    (hw2 : w ≤ (120 : ℚ)) (hθ1 : -180 < p.theta) (hθ2 : p.theta ≤ 180)
    (h : build_base_region initState i so sh w p) :
    -2 ≤ p.theta ∧ p.theta ≤ (w : ℝ) + 2 := by
  have hwR : (15 : ℝ) ≤ (w : ℝ) := by exact_mod_cast hw1
  have hwR2 : (w : ℝ) ≤ 120 := by exact_mod_cast hw2
  have hiR : (20 : ℝ) ≤ (i : ℝ) := by exact_mod_cast hi
  rcases build_base_cases h with ⟨hb3, -⟩ | harm | harm | ⟨htip, -⟩ | ⟨htip, -⟩
  · rcases pre_interlink_cases hb3 with hring | ⟨hrail, hclean⟩ | hfence | ⟨-, hkeep⟩
    · simp only [ring_root_rev] at hring
      constructor <;> linarith [hring.1, hring.2.1]
    · simp only [rails_cleanup_region] at hclean
      norm_num [initState] at hclean
      have hρ : (81 / 4 : ℝ) ≤ p.rho := by linarith [hclean.1]
      rcases hrail with h0 | h1
      · simp only [rail_region, xCoord, yCoord] at h0
        norm_num [initState] at h0
        obtain ⟨ha, -, hb, hc, hd⟩ := h0
        have := rail_angle_zero_side hθ1 hθ2 hρ ha hb (by linarith)
        constructor <;> linarith [this.1, this.2]
      · simp only [rail_region, xCoord, yCoord] at h1
        norm_num [initState] at h1
        obtain ⟨ha, -, hb, hc, hd⟩ := h1
        have := rail_angle_wedge_side (α := p.theta - (w : ℝ)) (ρ := p.rho)
          (by linarith) (by linarith) hρ ha (by linarith) (by linarith)
        constructor <;> linarith [this.1, this.2]
    · simp only [fence_region] at hfence
      constructor <;> linarith [hfence.1, hfence.2.1]
    · simp only [fence_tab_keep_region] at hkeep
      constructor <;> linarith [hkeep.1, hkeep.2.1]
  · rw [claw_arm_outer_region, ring_rect_mem_iff] at harm
    obtain ⟨-, -, -, -, h5, h6⟩ := harm
    push_cast [ring_claw_span] at h5 h6
    have h5' : (w : ℝ) ≤ p.theta :=
      le_trans (le_min (by linarith) (by linarith)) h5
    have h6' : p.theta ≤ (w : ℝ) + 2 :=
      le_trans h6 (max_le (by linarith) (by linarith))
    constructor <;> linarith
  · rw [claw_arm_inner_region, ring_rect_mem_iff] at harm
    obtain ⟨-, -, -, -, h5, h6⟩ := harm
    push_cast [ring_claw_span] at h5 h6
    have h5' : (-2 : ℝ) ≤ p.theta :=
      le_trans (le_min (by norm_num) (by norm_num)) h5
    have h6' : p.theta ≤ (0 : ℝ) :=
      le_trans h6 (max_le (by norm_num) (by norm_num))
    constructor <;> linarith
  · rw [claw_tip_outer_region] at htip
    have hb := ring_pgram_bounds htip
    obtain ⟨-, -, -, -, h5, h6⟩ := hb
    push_cast [ring_claw_span, ring_claw_rake] at h5 h6
    have h5' : (w : ℝ) - 1/2 ≤ p.theta := by
      refine le_trans ?_ h5
      refine le_min (le_min ?_ ?_) (le_min ?_ ?_) <;> linarith
    have h6' : p.theta ≤ (w : ℝ) + 2 := by
      refine le_trans h6 ?_
      refine max_le (max_le ?_ ?_) (max_le ?_ ?_) <;> linarith
    constructor <;> linarith
  · rw [claw_tip_inner_region] at htip
    have hb := ring_pgram_bounds htip
    obtain ⟨-, -, -, -, h5, h6⟩ := hb
    push_cast [ring_claw_span, ring_claw_rake] at h5 h6
    have h5' : (-2 : ℝ) ≤ p.theta := by
      refine le_trans ?_ h5
      refine le_min (le_min ?_ ?_) (le_min ?_ ?_) <;> linarith
    have h6' : p.theta ≤ (1/2 : ℝ) := by
      refine le_trans h6 ?_
      refine max_le (max_le ?_ ?_) (max_le ?_ ?_) <;> linarith
    constructor <;> linarith

/-- Every point of `build_tray` at the module constants, with canonical
nonnegative cylindrical coordinates, lies within `[0°, wedge_size]`. -/
lemma tray_span {o : TrayOpaque} {i so sh w wall : ℚ} {lbl : Bool} {p : Pt}
    (hso : (20 : ℚ) ≤ so) (hw1 : (15 : ℚ) ≤ w) (hw2 : w ≤ (120 : ℚ))
    (hθ1 : -180 < p.theta) (hθ2 : p.theta ≤ 180) (hρ0 : 0 ≤ p.rho)
    (h : build_tray_region initState o i so sh w wall lbl p) :
    0 ≤ p.theta ∧ p.theta ≤ (w : ℝ) := by
  have hwR : (15 : ℝ) ≤ (w : ℝ) := by exact_mod_cast hw1
  have hwR2 : (w : ℝ) ≤ 120 := by exact_mod_cast hw2
  have hsoR : (20 : ℝ) ≤ (so : ℝ) := by exact_mod_cast hso
  rcases build_tray_cases h with hp | ⟨-, hk⟩
  · exact ⟨hp.1, hp.2.1⟩
  · simp only [handle_keep_region, xCoord, yCoord, outer_radius_of, height_of] at hk
    norm_num [initState] at hk
    obtain ⟨hx1, -, hy1, hy2, -, -⟩ := hk
    have hβ := keep_angle_mid (β := p.theta - (w : ℝ) / 2) (ρ := p.rho)
      (by linarith) (by linarith) hρ0 (by linarith) (by linarith) (by linarith)
    constructor <;> linarith [hβ.1, hβ.2]

/-! ### Concrete membership facts at the scenario parameters
`inner_radius = 55`, `spool_outer_radius = 100`, `spool_height = 70`,
`wedge_size = 30` (the spec's concrete scenario, with the inner radius at
its integer value).  The claw outer radius is `55 + 6 + 4 - 1.6 = 63.4`;
the outer interlink arm occupies bottom-equivalent radii
`[61.4, 63] = [307/5, 63]` and angles `[30°, 32°]`. -/

/-- Points of the outer interlink arm at angle `31°`, height `1`, lie in
the base: the arm pokes `2°` beyond the wedge's angular interval. -/
lemma arm_band_mem {ρ : ℝ} (h1 : 302/5 ≤ ρ) (h2 : ρ ≤ 62) :
    build_base_region initState 55 100 70 30 ⟨31, ρ, 1⟩ := by
  have haO : claw_arm_outer_region initState 55 30 ⟨31, ρ, 1⟩ := by
    rw [claw_arm_outer_region, ring_rect_mem_iff]
    push_cast [claw_outer_radius, ring_claw_thickness, ring_claw_span, initState]
    norm_num [min_def, max_def]
    exact ⟨by linarith, by linarith⟩
  have hnsI : ¬ claw_slot_inner_region initState 55 30 ⟨31, ρ, 1⟩ := by
    rw [claw_slot_inner_region, ring_rect_mem_iff]
    push_cast [claw_outer_radius, ring_claw_thickness, ring_claw_span, ring_claw_gap,
      initState]
    norm_num [min_def, max_def]
  have hncl : ¬ claw_cleanup_region initState 55 ⟨31, ρ, 1⟩ := by
    simp only [claw_cleanup_region]
    push_cast [initState]
    intro hc
    norm_num at hc
    linarith
  have hnch : ¬ ring_chamfer_cut_region initState 55 30 ⟨31, ρ, 1⟩ := by
    simp only [ring_chamfer_cut_region]
    push_cast [initState]
    intro hc
    norm_num at hc
  exact ⟨⟨Or.inl (Or.inl (Or.inl ⟨Or.inr haO, hnsI⟩)), hncl⟩, hnch⟩

/-- At angle `31°`, height `1`, the base holds no material with
bottom-equivalent radius in `(63, 63.4]`: the arm's outer mating face
ends at radius `63`. -/
lemma not_mem_base_at31 {ρ : ℝ} (h1 : 62 < ρ) (h2 : ρ ≤ 312/5) :
    ¬ build_base_region initState 55 100 70 30 ⟨31, ρ, 1⟩ := by
  intro h
  rcases build_base_cases h with ⟨hb3, -⟩ | harm | harm | ⟨htip, -⟩ | ⟨htip, -⟩
  · rcases pre_interlink_cases hb3 with hring | ⟨hrail, hclean⟩ | hfence | ⟨-, hkeep⟩
    · simp only [ring_root_rev] at hring
      norm_num at hring
    · rcases hrail with h0 | h1e
      · simp only [rail_region, xCoord, yCoord] at h0
        norm_num [initState] at h0
        have hs : (1/2 : ℝ) ≤ sind 31 := by
          rw [← sind_thirty]
          exact sind_le_sind (by norm_num) (by norm_num) (by norm_num)
        nlinarith [h0.2.2.1, h0.2.2.2, mul_le_mul_of_nonneg_left hs
          (show (0:ℝ) ≤ ρ by linarith)]
      · simp only [rail_region, xCoord, yCoord] at h1e
        norm_num [initState] at h1e
        have hs : 0 < sind 1 := sind_pos (by norm_num) (by norm_num)
        nlinarith [h1e.2.2.1, mul_pos (show (0:ℝ) < ρ by linarith) hs]
    · simp only [fence_region, outer_radius_of] at hfence
      norm_num [initState] at hfence
    · simp only [fence_tab_keep_region, outer_radius_of] at hkeep
      norm_num [initState] at hkeep
  · rw [claw_arm_outer_region, ring_rect_mem_iff] at harm
    push_cast [claw_outer_radius, ring_claw_thickness, ring_claw_span, initState]
      at harm
    norm_num [min_def, max_def] at harm
    linarith
  · rw [claw_arm_inner_region, ring_rect_mem_iff] at harm
    push_cast [ring_claw_thickness, ring_claw_span, initState] at harm
    norm_num [min_def, max_def] at harm
  · rw [claw_tip_outer_region] at htip
    have hb := ring_pgram_bounds htip
    obtain ⟨-, -, -, h4, -, -⟩ := hb
    push_cast [claw_outer_radius, ring_claw_thickness, ring_claw_span,
      ring_claw_rake, initState] at h4
    have : max ((55:ℝ) + 6 + 4 - 2/5 * 4 - 2/5 - 2/5 * 4) (55 + 2 + 2/5 * 4) ≤ 307/5 :=
      max_le (by norm_num) (by norm_num)
    linarith
  · rw [claw_tip_inner_region] at htip
    have hb := ring_pgram_bounds htip
    obtain ⟨-, -, -, h4, -, -⟩ := hb
    push_cast [claw_outer_radius, ring_claw_thickness, ring_claw_span,
      ring_claw_rake, initState] at h4
    have : max ((55:ℝ) + 2 + 2/5 * 4 - 1/10) (55 + 6 + 4 - 2/5 * 4 - 2/5 - 2/5 * 4)
        ≤ 307/5 := max_le (by norm_num) (by norm_num)
    linarith

/-- At angle `1°`, height `1`, the base holds no material with
bottom-equivalent radius in `(63, 63.4]`: this strip was removed by the
outer claw slot cut, whose wall sits at radius `63.4`. -/
lemma not_mem_neighbor_at1 {ρ : ℝ} (h1 : 62 < ρ) (h2 : ρ ≤ 312/5) :
    ¬ build_base_region initState 55 100 70 30 ⟨1, ρ, 1⟩ := by
  intro h
  rcases build_base_cases h with ⟨-, hnsO⟩ | harm | harm | ⟨htip, -⟩ | ⟨htip, -⟩
  · apply hnsO
    rw [claw_slot_outer_region, ring_rect_mem_iff]
    push_cast [claw_outer_radius, ring_claw_thickness, ring_claw_span, ring_claw_gap,
      initState]
    norm_num [min_def, max_def]
    exact ⟨by linarith, by linarith⟩
  · rw [claw_arm_outer_region, ring_rect_mem_iff] at harm
    push_cast [claw_outer_radius, ring_claw_thickness, ring_claw_span, initState]
      at harm
    norm_num [min_def, max_def] at harm
  · rw [claw_arm_inner_region, ring_rect_mem_iff] at harm
    push_cast [ring_claw_thickness, ring_claw_span, initState] at harm
    norm_num [min_def, max_def] at harm
  · rw [claw_tip_outer_region] at htip
    have hb := ring_pgram_bounds htip
    obtain ⟨-, -, -, -, h5, -⟩ := hb
    push_cast [claw_outer_radius, ring_claw_thickness, ring_claw_span,
      ring_claw_rake, initState] at h5
    have : (29 : ℝ) ≤ min (min (30 + 1/2) (30 - 1/2)) (min (30 + 2) (30 + 2 - 1/2*2)) :=
      le_min (le_min (by norm_num) (by norm_num)) (le_min (by norm_num) (by norm_num))
    linarith
  · rw [claw_tip_inner_region] at htip
    have hb := ring_pgram_bounds htip
    obtain ⟨-, -, -, h4, -, -⟩ := hb
    push_cast [claw_outer_radius, ring_claw_thickness, ring_claw_span,
      ring_claw_rake, initState] at h4
    have : max ((55:ℝ) + 2 + 2/5 * 4 - 1/10) (55 + 6 + 4 - 2/5 * 4 - 2/5 - 2/5 * 4)
        ≤ 307/5 := max_le (by norm_num) (by norm_num)
    linarith

/-- At angle `1°`, height `1`, the base holds ring-root material at every
bottom-equivalent radius in `(63.4, 64]`: the slot's outer wall. -/
lemma neighbor_wall_mem {ρ : ℝ} (h1 : 312/5 < ρ) (h2 : ρ ≤ 63) :
    build_base_region initState 55 100 70 30 ⟨1, ρ, 1⟩ := by
  have hring : ring_root_rev initState 55 30 ⟨1, ρ, 1⟩ := by
    simp only [ring_root_rev]
    push_cast [initState]
    norm_num
    constructor <;> linarith
  have hann : rails_cleanup_region initState 55 (outer_radius_of initState 100)
      (height_of initState 70) ⟨1, ρ, 1⟩ := by
    simp only [rails_cleanup_region, outer_radius_of, height_of]
    push_cast [initState]
    norm_num
    constructor <;> linarith
  have hb3 : (rUnion
      (add_side_rails_region initState (ring_root_rev initState 55 30) 55
        (outer_radius_of initState 100) (height_of initState 70) 30)
      (build_outer_fence_region initState (outer_radius_of initState 100) 30))
      ⟨1, ρ, 1⟩ :=
    Or.inl ⟨Or.inl (Or.inl hring), hann⟩
  have hnsO : ¬ claw_slot_outer_region initState 55 ⟨1, ρ, 1⟩ := by
    rw [claw_slot_outer_region, ring_rect_mem_iff]
    push_cast [claw_outer_radius, ring_claw_thickness, ring_claw_span, ring_claw_gap,
      initState]
    norm_num [min_def, max_def]
    intro
    linarith
  have hnsI : ¬ claw_slot_inner_region initState 55 30 ⟨1, ρ, 1⟩ := by
    rw [claw_slot_inner_region, ring_rect_mem_iff]
    push_cast [claw_outer_radius, ring_claw_thickness, ring_claw_span, ring_claw_gap,
      initState]
    norm_num [min_def, max_def]
  have hncl : ¬ claw_cleanup_region initState 55 ⟨1, ρ, 1⟩ := by
    simp only [claw_cleanup_region]
    push_cast [initState]
    intro hc
    norm_num at hc
    linarith
  have hnch : ¬ ring_chamfer_cut_region initState 55 30 ⟨1, ρ, 1⟩ := by
    simp only [ring_chamfer_cut_region]
    push_cast [initState]
    intro hc
    norm_num at hc
    linarith [hc.1]
  exact ⟨⟨Or.inl (Or.inl (Or.inl ⟨Or.inl ⟨hb3, hnsO⟩, hnsI⟩)), hncl⟩, hnch⟩

/-! ### C3 — angular spans -/

/-- C3 counterexample: at the spec's concrete scenario
`(55, 100, 70, 30°)`, the base does **not** span only `[0°, 30°]`: the
point at angle `31°`, radius `61`, height `1` — inside the outer
interlink arm — belongs to `build_base`. -/
theorem c3_counterexample_base_exceeds_wedge :
    ¬ (∀ p : Pt, build_base_region initState 55 100 70 30 p →
        0 ≤ p.theta ∧ p.theta ≤ 30) := by
  intro hall
  have h := hall ⟨31, 61, 1⟩ (arm_band_mem (by norm_num) (by norm_num))
  norm_num at h

/-- C3 amended: with canonical angle coordinates and parameters in the
supported range, every point of a base or placeholder lies within
`[-2°, wedge_size + 2°]` — only the interlink features reach beyond
`[0°, wedge_size]`, by at most `2°` — every point of a tray lies within
`[0°, wedge_size]`, and the interlink features are confined to bands of
width at most `4.5°` (within the claimed 2°–5°) containing the two
angular boundaries: `[0°, 2.5°]`, `[-2°, 0°]` and `[-2°, 0.5°]` at the
`0°` boundary, `[w-2.5°, w]`, `[w, w+2°]` and `[w-0.5°, w+2°]` at the
`wedge_size` boundary. -/
theorem c3_amended_feature_spans :
    (∀ (i so sh w : ℚ) (p : Pt), 20 ≤ i → 15 ≤ w → w ≤ 120 →
      -180 < p.theta → p.theta ≤ 180 →
      build_base_region initState i so sh w p →
      -2 ≤ p.theta ∧ p.theta ≤ (w : ℝ) + 2) ∧
    (∀ (i so sh w : ℚ) (p : Pt), 20 ≤ i → 15 ≤ w → w ≤ 120 →
      -180 < p.theta → p.theta ≤ 180 →
      build_placeholder_region initState i so sh w p →
      -2 ≤ p.theta ∧ p.theta ≤ (w : ℝ) + 2) ∧
    (∀ (o : TrayOpaque) (i so sh w wall : ℚ) (lbl : Bool) (p : Pt),
      20 ≤ so → 15 ≤ w → w ≤ 120 → -180 < p.theta → p.theta ≤ 180 → 0 ≤ p.rho →
      build_tray_region initState o i so sh w wall lbl p →
      0 ≤ p.theta ∧ p.theta ≤ (w : ℝ)) ∧
    (∀ (i w : ℚ) (p : Pt),
      (claw_slot_outer_region initState i p → 0 ≤ p.theta ∧ p.theta ≤ 5/2) ∧
      (claw_arm_inner_region initState i p → -2 ≤ p.theta ∧ p.theta ≤ 0) ∧
      (claw_tip_inner_region initState i p → -2 ≤ p.theta ∧ p.theta ≤ 1/2) ∧
      (claw_slot_inner_region initState i w p →
        (w : ℝ) - 5/2 ≤ p.theta ∧ p.theta ≤ (w : ℝ)) ∧
      (claw_arm_outer_region initState i w p →
        (w : ℝ) ≤ p.theta ∧ p.theta ≤ (w : ℝ) + 2) ∧
      (claw_tip_outer_region initState i w p →
        (w : ℝ) - 1/2 ≤ p.theta ∧ p.theta ≤ (w : ℝ) + 2)) := by
  refine ⟨?_, ?_, ?_, ?_⟩
  · intro i so sh w p hi hw1 hw2 hθ1 hθ2 h
    exact base_span hi hw1 hw2 hθ1 hθ2 h
  · intro i so sh w p hi hw1 hw2 hθ1 hθ2 h
    exact base_span hi hw1 hw2 hθ1 hθ2 h.1
  · intro o i so sh w wall lbl p hso hw1 hw2 hθ1 hθ2 hρ h
    exact tray_span hso hw1 hw2 hθ1 hθ2 hρ h
  · intro i w p
    refine ⟨?_, ?_, ?_, ?_, ?_, ?_⟩
    · intro h
      rw [claw_slot_outer_region, ring_rect_mem_iff] at h
      obtain ⟨-, -, -, -, h5, h6⟩ := h
      push_cast [ring_claw_span, ring_claw_gap] at h5 h6
      exact ⟨le_trans (le_min (by norm_num) (by norm_num)) h5,
        le_trans h6 (max_le (by norm_num) (by norm_num))⟩
    · intro h
      rw [claw_arm_inner_region, ring_rect_mem_iff] at h
      obtain ⟨-, -, -, -, h5, h6⟩ := h
      push_cast [ring_claw_span] at h5 h6
      exact ⟨le_trans (le_min (by norm_num) (by norm_num)) h5,
        le_trans h6 (max_le (by norm_num) (by norm_num))⟩
    · intro h
      rw [claw_tip_inner_region] at h
      obtain ⟨-, -, -, -, h5, h6⟩ := ring_pgram_bounds h
      push_cast [ring_claw_span, ring_claw_rake] at h5 h6
      constructor
      · refine le_trans ?_ h5
        refine le_min (le_min ?_ ?_) (le_min ?_ ?_) <;> norm_num
      · refine le_trans h6 ?_
        refine max_le (max_le ?_ ?_) (max_le ?_ ?_) <;> norm_num
    · intro h
      rw [claw_slot_inner_region, ring_rect_mem_iff] at h
      obtain ⟨-, -, -, -, h5, h6⟩ := h
      push_cast [ring_claw_span, ring_claw_gap] at h5 h6
      exact ⟨le_trans (le_min (by linarith) (by linarith)) h5,
        le_trans h6 (max_le (by linarith) (by linarith))⟩
    · intro h
      rw [claw_arm_outer_region, ring_rect_mem_iff] at h
      obtain ⟨-, -, -, -, h5, h6⟩ := h
      push_cast [ring_claw_span] at h5 h6
      exact ⟨le_trans (le_min (by linarith) (by linarith)) h5,
        le_trans h6 (max_le (by linarith) (by linarith))⟩
    · intro h
      rw [claw_tip_outer_region] at h
      obtain ⟨-, -, -, -, h5, h6⟩ := ring_pgram_bounds h
      push_cast [ring_claw_span, ring_claw_rake] at h5 h6
      constructor
      · refine le_trans ?_ h5
        refine le_min (le_min ?_ ?_) (le_min ?_ ?_) <;> linarith
      · refine le_trans h6 ?_
        refine max_le (max_le ?_ ?_) (max_le ?_ ?_) <;> linarith

/-- Witness for the amended C3 theorem: its base-span conjunct applied at
the concrete scenario and the interlink-arm point, with every hypothesis
discharged. -/
theorem c3_amended_feature_spans_witness :
    ((20 : ℚ) ≤ 55 ∧ (15 : ℚ) ≤ 30 ∧ (30 : ℚ) ≤ 120 ∧
      (-180 : ℝ) < 31 ∧ (31 : ℝ) ≤ 180 ∧
      build_base_region initState 55 100 70 30 ⟨31, 61, 1⟩) ∧
    (-2 ≤ (31 : ℝ) ∧ (31 : ℝ) ≤ ((30 : ℚ) : ℝ) + 2) := by
  have h1 : (20 : ℚ) ≤ 55 := by norm_num
  have h2 : (15 : ℚ) ≤ 30 := by norm_num
  have h3 : (30 : ℚ) ≤ 120 := by norm_num
  have h4 : (-180 : ℝ) < 31 := by norm_num
  have h5 : (31 : ℝ) ≤ 180 := by norm_num
  have hmem : build_base_region initState 55 100 70 30 ⟨31, 61, 1⟩ :=
    arm_band_mem (by norm_num) (by norm_num)
  exact ⟨⟨h1, h2, h3, h4, h5, hmem⟩,
    c3_amended_feature_spans.1 55 100 70 30 ⟨31, 61, 1⟩ h1 h2 h3 h4 h5 hmem⟩

/-! ### C2 — interlink arm/slot fit -/

/-- C2 amended: the outer interlink arm of a base and the outer slot of a
copy of the same base rotated by `wedge_size` are complementary — every
open-interior arm point sits inside the rotated slot and meets no
material of the rotated base — but the design play between the mating
surfaces is set by `nozzle_diameter` (0.4 mm radially) and
`ring_claw_gap` (0.5° angularly), not by `additional_clearance`
(0.25 mm), which is strictly smaller than the radial play. -/
theorem c2_amended_play_is_nozzle_not_clearance :
    (∀ (i so sh w : ℚ) (p : Pt), 15 ≤ w →
      claw_arm_outer_open_region initState i w p →
      claw_slot_outer_region initState i (rotPt w p) ∧
      ¬ build_base_region initState i so sh w (rotPt w p)) ∧
    initState.nozzle_diameter = 2/5 ∧
    ring_claw_gap = 1/2 ∧
    initState.additional_clearance = 1/4 ∧
    ¬ (initState.nozzle_diameter ≤ initState.additional_clearance) := by
  refine ⟨?_, rfl, rfl, rfl, by norm_num [initState]⟩
  intro i so sh w p hw hopen
  have hwR : (15 : ℝ) ≤ (w : ℝ) := by exact_mod_cast hw
  simp only [claw_arm_outer_open_region] at hopen
  push_cast [claw_outer_radius, ring_claw_thickness, ring_claw_span, initState]
    at hopen
  obtain ⟨ht1, ht2, hr1, hr2, hz1, hz2⟩ := hopen
  have hslot : claw_slot_outer_region initState i (rotPt w p) := by
    rw [claw_slot_outer_region, ring_rect_mem_iff]
    push_cast [claw_outer_radius, ring_claw_thickness, ring_claw_span, ring_claw_gap,
      initState]
    simp only [rotPt]
    refine ⟨by linarith, by linarith,
      le_trans (min_le_left _ _) (by linarith),
      le_trans (by linarith) (le_max_right _ _),
      le_trans (min_le_left _ _) (by linarith),
      le_trans (by linarith) (le_max_right _ _)⟩
  refine ⟨hslot, ?_⟩
  intro hmem
  rcases build_base_cases hmem with ⟨-, hnsO⟩ | harm | harm | ⟨htip, -⟩ |
    ⟨htip, hnclear⟩
  · exact hnsO hslot
  · rw [claw_arm_outer_region, ring_rect_mem_iff] at harm
    obtain ⟨-, -, -, -, h5, -⟩ := harm
    push_cast [ring_claw_span] at h5
    simp only [rotPt] at h5
    have : (w : ℝ) ≤ p.theta - (w : ℝ) :=
      le_trans (le_min (le_refl _) (by linarith)) h5
    linarith
  · rw [claw_arm_inner_region, ring_rect_mem_iff] at harm
    obtain ⟨-, -, -, -, -, h6⟩ := harm
    push_cast [ring_claw_span] at h6
    simp only [rotPt] at h6
    have : p.theta - (w : ℝ) ≤ 0 :=
      le_trans h6 (max_le (le_refl _) (by norm_num))
    linarith
  · rw [claw_tip_outer_region] at htip
    obtain ⟨-, -, -, -, h5, -⟩ := ring_pgram_bounds htip
    push_cast [ring_claw_span, ring_claw_rake] at h5
    simp only [rotPt] at h5
    have : (w : ℝ) - 1/2 ≤ p.theta - (w : ℝ) := by
      refine le_trans ?_ h5
      refine le_min (le_min ?_ ?_) (le_min ?_ ?_) <;> linarith
    linarith
  · rw [claw_tip_inner_region] at htip
    obtain ⟨-, -, -, -, -, h6⟩ := ring_pgram_bounds htip
    push_cast [ring_claw_span, ring_claw_rake] at h6
    simp only [rotPt] at h6
    have hth : p.theta - (w : ℝ) ≤ 1/2 := by
      refine le_trans h6 ?_
      refine max_le (max_le ?_ ?_) (max_le ?_ ?_) <;> norm_num
    apply hnclear
    rw [claw_tip_inner_clear_region, ring_rect_mem_iff]
    push_cast [claw_outer_radius, ring_claw_thickness, ring_claw_span,
      ring_claw_rake, initState]
    simp only [rotPt]
    refine ⟨by linarith, by linarith,
      le_trans (min_le_left _ _) (by linarith),
      le_trans (by linarith) (le_max_right _ _),
      le_trans (min_le_left _ _) (by linarith),
      le_trans (by linarith) (le_max_right _ _)⟩

/-- Witness for the amended C2 theorem: the complementarity conjunct
applied at the concrete scenario `(55, 100, 70, 30°)` and the open arm
point at angle `31°`, radius `61`, height `1`. -/
theorem c2_amended_play_witness :
    ((15 : ℚ) ≤ 30 ∧ claw_arm_outer_open_region initState 55 30 ⟨31, 61, 1⟩) ∧
    (claw_slot_outer_region initState 55 (rotPt 30 ⟨31, 61, 1⟩) ∧
      ¬ build_base_region initState 55 100 70 30 (rotPt 30 ⟨31, 61, 1⟩)) := by
  have h15 : (15 : ℚ) ≤ 30 := by norm_num
  have hopen : claw_arm_outer_open_region initState 55 30 ⟨31, 61, 1⟩ := by
    simp only [claw_arm_outer_open_region]
    push_cast [claw_outer_radius, ring_claw_thickness, ring_claw_span, initState]
    norm_num
  exact ⟨⟨h15, hopen⟩,
    c2_amended_play_is_nozzle_not_clearance.1 55 100 70 30 ⟨31, 61, 1⟩ h15 hopen⟩

/-- C2 counterexample: at the concrete scenario `(55, 100, 70, 30°)`, the
gap between the arm's outer mating face (bottom-equivalent radius `63`)
and the facing wall of the rotated copy's slot (radius `63.4`) is
`0.4 mm = nozzle_diameter`: the arm face lies in the base, the radial
strip of width `0.4` beyond it (measured at angle `31°`, height `1`)
meets neither the base nor the rotated copy, material of the rotated copy
is present throughout the next strip, and `0.4` exceeds
`additional_clearance = 0.25` — so the mating gap is **not** at most the
clearance. -/
theorem c2_counterexample_gap_exceeds_clearance :
    build_base_region initState 55 100 70 30 ⟨31, 62, 1⟩ ∧
    radial_gap_free (build_base_region initState 55 100 70 30)
      (rotated_copy 30 (build_base_region initState 55 100 70 30)) 31 1 62 (312/5) ∧
    radial_band_filled (rotated_copy 30 (build_base_region initState 55 100 70 30))
      31 1 (312/5) 63 ∧
    (312/5 : ℝ) - 62 = 2/5 ∧
    ¬ ((2/5 : ℚ) ≤ initState.additional_clearance) := by
  have hrot : ∀ ρ : ℝ, rotPt 30 ⟨31, ρ, 1⟩ = ⟨1, ρ, 1⟩ := by
    intro ρ
    simp only [rotPt, Pt.mk.injEq]
    norm_num
  refine ⟨arm_band_mem (by norm_num) (by norm_num), ?_, ?_, by norm_num,
    by norm_num [initState]⟩
  · intro ρ hρ1 hρ2
    refine ⟨not_mem_base_at31 hρ1 hρ2, ?_⟩
    show ¬ build_base_region initState 55 100 70 30 (rotPt 30 ⟨31, ρ, 1⟩)
    rw [hrot ρ]
    exact not_mem_neighbor_at1 hρ1 hρ2
  · intro ρ hρ1 hρ2
    show build_base_region initState 55 100 70 30 (rotPt 30 ⟨31, ρ, 1⟩)
    rw [hrot ρ]
    exact neighbor_wall_mem hρ1 hρ2

end R2S4
